import Mathlib

/-!
Shallow embedding of the structured-data extraction / comparison engine of
`src/app.py` (a single-file Python application).

Python values flowing through the engine are JSON-like dynamic values; they
are embedded as `JValue`.  Python `dict`s are embedded as insertion-ordered
association lists (`alistPut` keeps the position of an overwritten key, as
CPython does).  Python `set`s of strings are embedded as insertion-ordered
duplicate-free lists (only membership is relied upon).  Code that can raise
at runtime is embedded in `Except String`; the error strings name the Python
exception.  Modelled fragment caveats (marked where they occur):
* JSON numbers are parsed only when integral (floats are outside the
  modelled fragment);
* records whose `@type` is a number, boolean or `null` are mapped to an
  error in `effType` / `addRecordTypes`, although CPython would carry the
  raw value further (such tags never occur in data produced by the
  extractors and are outside the modelled fragment).
-/

/-- A JSON-like dynamic value (the shape of the Python dicts/lists/strings
handled by `app.py`). -/
inductive JValue where
  | s (v : String)
  | n (v : Int)
  | b (v : Bool)
  | null
  | arr (vs : List JValue)
  | obj (fields : List (String × JValue))

/-- Lookup in an insertion-ordered association list (Python `d[k]` / `d.get(k)`). -/
def alistGet? {α : Type} : List (String × α) → String → Option α
  | [], _ => none
  | p :: t, k => if p.1 = k then some p.2 else alistGet? t k

/-- Key-membership test (Python `k in d`). -/
def alistHas {α : Type} (m : List (String × α)) (k : String) : Bool :=
  m.any (fun p => p.1 = k)

/-- Insertion with CPython dict semantics: an existing key keeps its
position and gets the new value; a new key is appended. -/
def alistPut {α : Type} : List (String × α) → String → α → List (String × α)
  | [], k, v => [(k, v)]
  | p :: t, k, v => if p.1 = k then (k, v) :: t else p :: alistPut t k v

/-- In-place update of one entry (Python `d[k].field = ...` mutations). -/
def alistModify {α : Type} : List (String × α) → String → (α → α) → List (String × α)
  | [], _, _ => []
  | p :: t, k, f => if p.1 = k then (k, f p.2) :: t else p :: alistModify t k f

/-- Add to an insertion-ordered set of strings (Python `set.add`). -/
def setAdd (ts : List String) (t : String) : List String :=
  if ts.contains t then ts else ts ++ [t]

/-- Union into an insertion-ordered set (Python `set.update`). -/
def setUnion (ts : List String) (new : List String) : List String :=
  new.foldl setAdd ts

/-- Set difference, keeping the left operand's order (Python `a - b`;
only membership of the result is relied upon downstream). -/
def setDiff (a b : List String) : List String :=
  a.filter (fun t => !b.contains t)

/-- Python's substring test `needle in hay` on strings. -/
def pyInStr (needle hay : String) : Bool :=
  decide (needle.data <:+: hay.data)

/-- Python `sep.join(parts)`. -/
def pyJoin (sep : String) : List String → String
  | [] => ""
  | [x] => x
  | x :: y :: xs => x ++ sep ++ pyJoin sep (y :: xs)

/-- Python `s.split('/')`: the segments between slashes, empty segments
kept (structural recursion over the characters). -/
def splitSlashAux (acc : List Char) : List Char → List String
  | [] => [String.mk acc.reverse]
  | c :: rest =>
    if c = '/' then String.mk acc.reverse :: splitSlashAux [] rest
    else splitSlashAux (c :: acc) rest

/-- The last component of `s.split('/')` (Python `s.split('/')[-1]`),
used for `itemtype.split('/')[-1]`. -/
def lastPathSegment (s : String) : String :=
  (splitSlashAux [] s.data).getLastD ""

/-- Python `str.lower()` on one character, over the ASCII range the static
table's keys use (non-ASCII case folding is outside the modelled
fragment). -/
def lowerChar (c : Char) : Char :=
  if 'A' ≤ c ∧ c ≤ 'Z' then Char.ofNat (c.toNat + 32) else c

/-- Python `str.lower()` (ASCII range). -/
def pyLower (s : String) : String :=
  String.mk (s.data.map lowerChar)

/-- Python `str.strip()` over the ASCII whitespace the embedding models
(space, tab, newline, carriage return). -/
def pyStrip (s : String) : String :=
  String.mk (((s.data.dropWhile Char.isWhitespace).reverse.dropWhile
    Char.isWhitespace).reverse)
/-- Effectful map over a list, propagating the first error. -/
def mapME {α β : Type} (f : α → Except String β) : List α → Except String (List β)
  | [] => .ok []
  | x :: xs => do
    let y ← f x
    let ys ← mapME f xs
    pure (y :: ys)

/-! ### A JSON reader (the fragment of Python `json.loads` exercised by
`extract_json_ld`).  `none` models a raised `JSONDecodeError`.  Numbers are
accepted only when integral: floats are outside the modelled fragment (a
block holding a float would be skipped here but kept by CPython). -/

/-- JSON whitespace skip. -/
def skipWs : List Char → List Char
  | c :: t => if c = ' ' || c = '\t' || c = '\n' || c = '\r' then skipWs t else c :: t
  | [] => []

/-- Hex digit value. -/
def hexVal? (c : Char) : Option Nat :=
  if '0' ≤ c ∧ c ≤ '9' then some (c.toNat - '0'.toNat)
  else if 'a' ≤ c ∧ c ≤ 'f' then some (c.toNat - 'a'.toNat + 10)
  else if 'A' ≤ c ∧ c ≤ 'F' then some (c.toNat - 'A'.toNat + 10)
  else none

/-- Body of a JSON string after the opening quote; strict mode (control
characters are refused, as in `json.loads`).  Lone surrogate escapes are out
of the modelled fragment and refused. -/
def parseJStr (acc : List Char) : List Char → Option (String × List Char)
  | [] => none
  | c :: rest =>
    if c = '"' then some (String.mk acc.reverse, rest)
    else if c = '\\' then
      match rest with
      | [] => none
      | e :: rest2 =>
        if e = '"' then parseJStr ('"' :: acc) rest2
        else if e = '\\' then parseJStr ('\\' :: acc) rest2
        else if e = '/' then parseJStr ('/' :: acc) rest2
        else if e = 'b' then parseJStr (Char.ofNat 8 :: acc) rest2
        else if e = 'f' then parseJStr (Char.ofNat 12 :: acc) rest2
        else if e = 'n' then parseJStr ('\n' :: acc) rest2
        else if e = 'r' then parseJStr ('\r' :: acc) rest2
        else if e = 't' then parseJStr ('\t' :: acc) rest2
        else if e = 'u' then
          match rest2 with
          | h1 :: h2 :: h3 :: h4 :: rest3 =>
            match hexVal? h1, hexVal? h2, hexVal? h3, hexVal? h4 with
            | some a, some b, some c2, some d =>
              let code := ((a * 16 + b) * 16 + c2) * 16 + d
              if 0xd800 ≤ code ∧ code ≤ 0xdfff then none
              else parseJStr (Char.ofNat code :: acc) rest3
            | _, _, _, _ => none
          | _ => none
        else none
    else if c.toNat < 0x20 then none
    else parseJStr (c :: acc) rest

/-- Digits of a JSON integer. -/
def parseDigits (acc : Nat) (seen : Bool) : List Char → Option (Nat × List Char)
  | c :: rest =>
    if '0' ≤ c ∧ c ≤ '9' then parseDigits (acc * 10 + (c.toNat - '0'.toNat)) true rest
    else if seen then some (acc, c :: rest) else none
  | [] => if seen then some (acc, []) else none

/-- A JSON number, integral only (fragment caveat in the section comment). -/
def parseJNum : List Char → Option (Int × List Char)
  | '-' :: rest =>
    match parseDigits 0 false rest with
    | some (v, rest2) =>
      match rest2 with
      | c :: _ => if c = '.' || c = 'e' || c = 'E' then none else some (-(v : Int), rest2)
      | [] => some (-(v : Int), [])
    | none => none
  | cs =>
    match parseDigits 0 false cs with
    | some (v, rest2) =>
      match rest2 with
      | c :: _ => if c = '.' || c = 'e' || c = 'E' then none else some ((v : Int), rest2)
      | [] => some ((v : Int), [])
    | none => none

mutual

/-- One JSON value (leading whitespace already skipped). -/
def parseJVal : Nat → List Char → Option (JValue × List Char)
  | 0, _ => none
  | _ + 1, [] => none
  | fuel + 1, c :: rest =>
    if c = '"' then (parseJStr [] rest).map (fun p => (JValue.s p.1, p.2))
    else if c = '[' then
      match skipWs rest with
      | ']' :: rest2 => some (JValue.arr [], rest2)
      | cs => (parseJItems fuel cs).map (fun p => (JValue.arr p.1, p.2))
    else if c = '\x7b' then
      match skipWs rest with
      | '\x7d' :: rest2 => some (JValue.obj [], rest2)
      | cs => (parseJMembers fuel [] cs).map (fun p => (JValue.obj p.1, p.2))
    else if c = 't' then
      match rest with
      | 'r' :: 'u' :: 'e' :: rest2 => some (JValue.b true, rest2)
      | _ => none
    else if c = 'f' then
      match rest with
      | 'a' :: 'l' :: 's' :: 'e' :: rest2 => some (JValue.b false, rest2)
      | _ => none
    else if c = 'n' then
      match rest with
      | 'u' :: 'l' :: 'l' :: rest2 => some (JValue.null, rest2)
      | _ => none
    else (parseJNum (c :: rest)).map (fun p => (JValue.n p.1, p.2))

/-- Array items, at the start of the first item (whitespace skipped). -/
def parseJItems (fuel : Nat) (cs : List Char) : Option (List JValue × List Char) :=
  match fuel with
  | 0 => none
  | fuel + 1 =>
    match parseJVal fuel cs with
    | none => none
    | some (v, rest) =>
      match skipWs rest with
      | ',' :: rest2 =>
        (parseJItems fuel (skipWs rest2)).map (fun p => (v :: p.1, p.2))
      | ']' :: rest2 => some ([v], rest2)
      | _ => none

/-- Object members, at the start of the first key (whitespace skipped).
Duplicate keys follow CPython: the last value wins at the first key's
position (`alistPut`). -/
def parseJMembers (fuel : Nat) (acc : List (String × JValue)) (cs : List Char) :
    Option (List (String × JValue) × List Char) :=
  match fuel with
  | 0 => none
  | fuel + 1 =>
    match cs with
    | '"' :: rest =>
      match parseJStr [] rest with
      | none => none
      | some (k, rest2) =>
        match skipWs rest2 with
        | ':' :: rest3 =>
          match parseJVal fuel (skipWs rest3) with
          | none => none
          | some (v, rest4) =>
            match skipWs rest4 with
            | ',' :: rest5 => parseJMembers fuel (alistPut acc k v) (skipWs rest5)
            | '\x7d' :: rest5 => some (alistPut acc k v, rest5)
            | _ => none
        | _ => none
    | _ => none

end

/-- Python `json.loads`: parse the whole text, refusing trailing garbage. -/
def json_loads (text : String) : Option JValue :=
  match parseJVal (text.length + 1) (skipWs text.data) with
  | some (v, rest) => if skipWs rest = [] then some v else none
  | none => none

/-! ### Serialization: `json.dumps(v, indent=2, ensure_ascii=False)`. -/

/-- Escape one character as `json.dumps` does with `ensure_ascii=False`:
only the quote, the backslash and control characters are escaped. -/
def jescapeChar (c : Char) : String :=
  if c = '"' then "\\\""
  else if c = '\\' then "\\\\"
  else if c = '\n' then "\\n"
  else if c = '\t' then "\\t"
  else if c = '\r' then "\\r"
  else if c = Char.ofNat 8 then "\\b"
  else if c = Char.ofNat 12 then "\\f"
  else if c.toNat < 0x20 then
    "\\u00" ++ String.mk [
      (if c.toNat / 16 < 10 then Char.ofNat ('0'.toNat + c.toNat / 16)
       else Char.ofNat ('a'.toNat + c.toNat / 16 - 10)),
      (if c.toNat % 16 < 10 then Char.ofNat ('0'.toNat + c.toNat % 16)
       else Char.ofNat ('a'.toNat + c.toNat % 16 - 10))]
  else String.mk [c]

/-- Escape a whole string for JSON output. -/
def jescape (v : String) : String :=
  String.join (v.data.map jescapeChar)

/-- `n` levels of 2-space indentation. -/
def jIndent (lvl : Nat) : String :=
  String.mk (List.replicate (lvl * 2) ' ')

mutual

/-- Render one value at nesting level `lvl` (the level of this value's
children), following `json.dumps(..., indent=2, ensure_ascii=False)`. -/
def dumpVal (lvl : Nat) : JValue → String
  | .s v => "\"" ++ jescape v ++ "\""
  | .n v => toString v
  | .b true => "true"
  | .b false => "false"
  | .null => "null"
  | .arr [] => "[]"
  | .arr (v :: vs) =>
    "[\n" ++ jIndent (lvl + 1) ++ dumpVal (lvl + 1) v ++ dumpItems (lvl + 1) vs ++
      "\n" ++ jIndent lvl ++ "]"
  | .obj [] => "\x7b\x7d"
  | .obj (f :: fs) =>
    "\x7b\n" ++ jIndent (lvl + 1) ++ "\"" ++ jescape f.1 ++ "\": " ++
      dumpVal (lvl + 1) f.2 ++ dumpFields (lvl + 1) fs ++ "\n" ++ jIndent lvl ++ "\x7d"

/-- Remaining array items, each preceded by a comma and a newline. -/
def dumpItems (lvl : Nat) : List JValue → String
  | [] => ""
  | v :: vs => ",\n" ++ jIndent lvl ++ dumpVal lvl v ++ dumpItems lvl vs

/-- Remaining object members, each preceded by a comma and a newline. -/
def dumpFields (lvl : Nat) : List (String × JValue) → String
  | [] => ""
  | f :: fs =>
    ",\n" ++ jIndent lvl ++ "\"" ++ jescape f.1 ++ "\": " ++ dumpVal lvl f.2 ++
      dumpFields lvl fs

end

/-- Python `json.dumps(v, indent=2, ensure_ascii=False)`. -/
def pyDumps (v : JValue) : String := dumpVal 0 v

/-! ### The parsed-HTML model.  `BeautifulSoup(html, 'html.parser')` is
modelled by the node tree it yields: element nodes with their attributes and
children, and text nodes.  A document (`soup`) is the list of top-level
nodes.  The extractors consume the soup only through `find_all` / `find`,
attribute access, `.string` and `get_text(strip=True)`, which are modelled
below. -/

/-- One node of the parsed HTML tree. -/
inductive Node where
  | text (s : String)
  | elem (tag : String) (attrs : List (String × String)) (children : List Node)

/-- Attribute access `el.get(name)` (also `el[name]` when present). -/
def Node.attr? : Node → String → Option String
  | .text _, _ => none
  | .elem _ attrs _, k => alistGet? attrs k

mutual

/-- All element nodes of a subtree satisfying `p`, in document order
(the node itself included): the traversal behind `soup.find_all`. -/
def matchingElems (p : String → List (String × String) → Bool) : Node → List Node
  | .text _ => []
  | .elem tag attrs children =>
    (if p tag attrs then [Node.elem tag attrs children] else []) ++
      matchingElemsList p children

/-- `matchingElems` over a list of sibling nodes. -/
def matchingElemsList (p : String → List (String × String) → Bool) :
    List Node → List Node
  | [] => []
  | n :: ns => matchingElems p n ++ matchingElemsList p ns

end

/-- `soup.find_all(...)` with predicate `p` over a whole document. -/
def findAll (p : String → List (String × String) → Bool) (doc : List Node) :
    List Node :=
  matchingElemsList p doc

/-- `element.find_all(...)`: descendants only, the element itself excluded. -/
def findAllIn (p : String → List (String × String) → Bool) : Node → List Node
  | .text _ => []
  | .elem _ _ children => matchingElemsList p children

/-- `soup.find(...)`: the first match in document order, or `None`. -/
def findFirst? (p : String → List (String × String) → Bool) (doc : List Node) :
    Option Node :=
  (findAll p doc).head?

mutual

/-- The text-node strings of a subtree, in document order. -/
def nodeTexts : Node → List String
  | .text s => [s]
  | .elem _ _ children => nodeTextsList children

/-- `nodeTexts` over sibling nodes. -/
def nodeTextsList : List Node → List String
  | [] => []
  | n :: ns => nodeTexts n ++ nodeTextsList ns

end

/-- `el.get_text(strip=True)`: each descendant string stripped, the
whitespace-only ones dropped, the rest joined. -/
def getTextStrip (n : Node) : String :=
  String.join (((nodeTexts n).map pyStrip).filter (fun s => s ≠ ""))

/-- `el.string`: the sole text child, reached through sole element
children; `None` otherwise. -/
def nodeString? : Node → Option String
  | .text s => some s
  | .elem _ _ [c] => nodeString? c
  | _ => none

/-! ### The extractors (`extract_json_ld` .. `extract_structured_data`). -/

/-- A per-document inventory: the `Dict[str, List[Dict]]` mapping a format
name to its record list. -/
abbrev Inventory : Type := List (String × List JValue)

/-- The `script type="application/ld+json"` elements of a document. -/
def ldScripts (doc : List Node) : List Node :=
  findAll (fun tag attrs =>
    tag = "script" && alistGet? attrs "type" = some "application/ld+json") doc

/-- What one JSON-LD script block contributes: nothing when its text fails
to parse (the `except` arm), the elements of a top-level array, or the
single parsed value. -/
def ldBlockRecords (scriptText : Option String) : List JValue :=
  match json_loads (scriptText.getD "") with
  | none => []
  | some (.arr l) => l
  | some v => [v]

/-- `extract_json_ld`: the accumulation loop over the script blocks. -/
def extract_json_ld (doc : List Node) : List JValue :=
  (ldScripts doc).foldl
    (fun acc script =>
      match json_loads ((nodeString? script).getD "") with
      | none => acc
      | some (.arr l) => acc ++ l
      | some v => acc ++ [v])
    []

/-- The record one `itemscope` element yields (before the non-emptiness
check): an optional `@type` from `itemtype`, then the `itemprop`
descendants with a non-empty name and value. -/
def microdataItem (item : Node) : List (String × JValue) :=
  let base : List (String × JValue) :=
    match (item.attr? "itemtype").getD "" with
    | "" => []
    | itemType => [("@type", JValue.s (lastPathSegment itemType))]
  (findAllIn (fun _ attrs => alistHas attrs "itemprop") item).foldl
    (fun itemData prop =>
      let propName := (prop.attr? "itemprop").getD ""
      let propValue :=
        match prop.attr? "content" with
        | some c => if c ≠ "" then c else getTextStrip prop
        | none => getTextStrip prop
      if propName ≠ "" && propValue ≠ "" then
        alistPut itemData propName (JValue.s propValue)
      else itemData)
    base

/-- `extract_microdata`: one record per `itemscope` element, kept only when
non-empty (the Python `if item_data:` truthiness test). -/
def extract_microdata (doc : List Node) : List JValue :=
  (findAll (fun _ attrs => alistHas attrs "itemscope") doc).foldl
    (fun acc item =>
      let itemData := microdataItem item
      if itemData.isEmpty then acc else acc ++ [JValue.obj itemData])
    []

/-- The meta tags whose attribute `key` exists, is non-empty and starts
with `pre` (the lambda filters in `extract_open_graph` /
`extract_twitter_cards`). -/
def taggedMetas (doc : List Node) (key pre : String) : List Node :=
  findAll (fun tag attrs =>
    tag = "meta" &&
      match alistGet? attrs key with
      | some v => v ≠ "" && v.startsWith pre
      | none => false) doc

/-- The data pairs collected by `extract_open_graph` / `extract_twitter_cards`:
name with every occurrence of `pre` removed (Python `str.replace`), content
non-empty. -/
def collectTagged (tags : List Node) (key pre : String) : List (String × JValue) :=
  tags.foldl
    (fun acc tag =>
      let name := (((tag.attr? key).getD "").replace pre "")
      let content := (tag.attr? "content").getD ""
      if name ≠ "" && content ≠ "" then alistPut acc name (JValue.s content)
      else acc)
    []

/-- `extract_open_graph`: a single record built as
`\x7b'@type': 'OpenGraph', **og_data\x7d` when any pair was found, else the
empty (falsy) dict, encoded as `[]`. -/
def extract_open_graph (doc : List Node) : List (String × JValue) :=
  let ogData := collectTagged (taggedMetas doc "property" "og:") "property" "og:"
  if !ogData.isEmpty then
    ogData.foldl (fun acc p => alistPut acc p.1 p.2) [("@type", JValue.s "OpenGraph")]
  else []

/-- `extract_twitter_cards`, symmetric over the `name` attribute and the
`twitter:` marker. -/
def extract_twitter_cards (doc : List Node) : List (String × JValue) :=
  let twitterData := collectTagged (taggedMetas doc "name" "twitter:") "name" "twitter:"
  if !twitterData.isEmpty then
    twitterData.foldl (fun acc p => alistPut acc p.1 p.2)
      [("@type", JValue.s "TwitterCard")]
  else []

/-- `extract_meta_tags`: description and keywords from the first matching
meta tag (empty `content` still recorded), title from the first `title`
element. -/
def extract_meta_tags (doc : List Node) : List (String × JValue) :=
  let metaData : List (String × JValue) := []
  let metaData :=
    match findFirst? (fun tag attrs =>
        tag = "meta" && alistGet? attrs "name" = some "description") doc with
    | some t => alistPut metaData "description" (JValue.s ((t.attr? "content").getD ""))
    | none => metaData
  let metaData :=
    match findFirst? (fun tag attrs =>
        tag = "meta" && alistGet? attrs "name" = some "keywords") doc with
    | some t => alistPut metaData "keywords" (JValue.s ((t.attr? "content").getD ""))
    | none => metaData
  let metaData :=
    match findFirst? (fun tag _ => tag = "title") doc with
    | some t => alistPut metaData "title" (JValue.s (getTextStrip t))
    | none => metaData
  if !metaData.isEmpty then
    metaData.foldl (fun acc p => alistPut acc p.1 p.2) [("@type", JValue.s "MetaTags")]
  else []

/-- `extract_structured_data`: the five per-format lists in source order,
the empty categories dropped. -/
def extract_structured_data (doc : List Node) : Inventory :=
  let structured : Inventory := [
    ("JSON-LD", extract_json_ld doc),
    ("Microdata", extract_microdata doc),
    ("OpenGraph",
      if !(extract_open_graph doc).isEmpty then [JValue.obj (extract_open_graph doc)]
      else []),
    ("TwitterCards",
      if !(extract_twitter_cards doc).isEmpty then [JValue.obj (extract_twitter_cards doc)]
      else []),
    ("MetaTags",
      if !(extract_meta_tags doc).isEmpty then [JValue.obj (extract_meta_tags doc)]
      else [])]
  structured.filter (fun p => !p.2.isEmpty)

/-! ### The inventory builder (`get_data_types_set`,
`flatten_data_for_comparison`). -/

/-- Whether a list element compares equal to the string `"@type"` under
Python `==` (only an equal string does). -/
def isAtTypeStr : JValue → Bool
  | .s t => t = "@type"
  | _ => false

/-- The loop body of `get_data_types_set` for one record: `'@type' in data`
(key membership on a dict, substring on a string, element equality on a
list, a `TypeError` elsewhere), then the tag or tags, else the category
name.  A scalar non-string tag is mapped to an error (fragment caveat:
CPython would add the raw value to the set; such tags do not arise from the
extractors). -/
def addRecordTypes (ts : List String) (data : JValue) (category : String) :
    Except String (List String) :=
  match data with
  | .obj fields =>
    match alistGet? fields "@type" with
    | none => .ok (setAdd ts category)
    | some (.s t) => .ok (setAdd ts t)
    | some (.arr tags) =>
      tags.foldlM
        (fun ts tag =>
          match tag with
          | JValue.s t => .ok (setAdd ts t)
          | JValue.arr _ => .error "TypeError: unhashable type: list"
          | JValue.obj _ => .error "TypeError: unhashable type: dict"
          | _ => .error "non-string tag in @type list: outside modelled fragment")
        ts
    | some (.obj _) => .error "TypeError: unhashable type: dict"
    | some _ => .error "non-string @type tag: outside modelled fragment"
  | .s text =>
    if pyInStr "@type" text then .error "TypeError: string indices must be integers"
    else .ok (setAdd ts category)
  | .arr elems =>
    if elems.any isAtTypeStr then .error "TypeError: list indices must be integers"
    else .ok (setAdd ts category)
  | _ => .error "TypeError: argument is not iterable"

/-- `get_data_types_set`: the set of tags over every record of every
category. -/
def get_data_types_set (structuredData : Inventory) : Except String (List String) :=
  structuredData.foldlM
    (fun ts p => p.2.foldlM (fun ts data => addRecordTypes ts data p.1) ts)
    []

/-- The effective type string of one record in `flatten_data_for_comparison`:
`data.get('@type', category)`, a list joined with `', '`.  `.get` on a
non-dict record is an `AttributeError`; a join over non-strings is a
`TypeError`; a scalar non-string tag is mapped to an error (fragment caveat:
CPython would key the flattened dict with the raw value). -/
def effType (data : JValue) (category : String) : Except String String :=
  match data with
  | .obj fields =>
    match alistGet? fields "@type" with
    | none => .ok category
    | some (.s t) => .ok t
    | some (.arr tags) =>
      (mapME (fun tag =>
        match tag with
        | JValue.s t => Except.ok t
        | _ => Except.error "TypeError: sequence item: expected str") tags).map
        (pyJoin ", ")
    | some (.obj _) => .error "TypeError: unhashable type: dict"
    | some _ => .error "non-string @type tag: outside modelled fragment"
  | _ => .error "AttributeError: object has no attribute get"

/-- `flatten_data_for_comparison`: each record keyed by its effective type,
suffixed with `_index` when its category holds more than one record. -/
def flatten_data_for_comparison (structuredData : Inventory) :
    Except String (List (String × JValue)) :=
  structuredData.foldlM
    (fun flattened p =>
      p.2.enum.foldlM
        (fun flattened ix => do
          let dataType ← effType ix.2 p.1
          pure (alistPut flattened
            (if p.2.length > 1 then dataType ++ "_" ++ toString ix.1 else dataType)
            ix.2))
        flattened)
    []

/-! ### The canonical example resolver (`get_schema_org_example`). -/

set_option maxHeartbeats 2000000 in
/-- The static `examples` table of `get_schema_org_example`, in source
order.  The Python source literal repeats five keys
(`SoftwareApplication`, `Hospital`, `Brand`, `ItemList`, `Game`); as in
CPython, each repeated key keeps its first position with its last value, so
the runtime dict has these 86 entries. -/
def examples : List (String × JValue) := [
  ("Thing", .obj [
     ("@context", .s "https://schema.org"),
     ("@type", .s "Thing"),
     ("name", .s "Nom de l'élément"),
     ("description", .s "Description de l'élément"),
     ("url", .s "https://www.example.com"),
     ("image", .s "https://www.example.com/image.jpg")]),
  ("Action", .obj [
     ("@context", .s "https://schema.org"),
     ("@type", .s "Action"),
     ("name", .s "Action générique"),
     ("agent", .obj [
       ("@type", .s "Person"),
       ("name", .s "Agent de l'action")]),
     ("startTime", .s "2024-01-01T10:00:00")]),
  ("ConsumeAction", .obj [
     ("@context", .s "https://schema.org"),
     ("@type", .s "ConsumeAction"),
     ("agent", .obj [
       ("@type", .s "Person"),
       ("name", .s "Consommateur")]),
     ("object", .obj [
       ("@type", .s "Product"),
       ("name", .s "Produit consommé")])]),
  ("WatchAction", .obj [
     ("@context", .s "https://schema.org"),
     ("@type", .s "WatchAction"),
     ("agent", .obj [
       ("@type", .s "Person"),
       ("name", .s "Spectateur")]),
     ("object", .obj [
       ("@type", .s "Movie"),
       ("name", .s "Film regardé")])]),
  ("ReadAction", .obj [
     ("@context", .s "https://schema.org"),
     ("@type", .s "ReadAction"),
     ("agent", .obj [
       ("@type", .s "Person"),
       ("name", .s "Lecteur")]),
     ("object", .obj [
       ("@type", .s "Article"),
       ("name", .s "Article lu")])]),
  ("BuyAction", .obj [
     ("@context", .s "https://schema.org"),
     ("@type", .s "BuyAction"),
     ("agent", .obj [
       ("@type", .s "Person"),
       ("name", .s "Acheteur")]),
     ("object", .obj [
       ("@type", .s "Product"),
       ("name", .s "Produit acheté")]),
     ("price", .s "99.99"),
     ("priceCurrency", .s "EUR")]),
  ("SearchAction", .obj [
     ("@context", .s "https://schema.org"),
     ("@type", .s "SearchAction"),
     ("target", .s "https://www.example.com/search?q=\x7bsearch_term_string\x7d"),
     ("query-input", .s "required name=search_term_string")]),
  ("ReviewAction", .obj [
     ("@context", .s "https://schema.org"),
     ("@type", .s "ReviewAction"),
     ("agent", .obj [
       ("@type", .s "Person"),
       ("name", .s "Reviewer")]),
     ("object", .obj [
       ("@type", .s "Product"),
       ("name", .s "Produit évalué")]),
     ("result", .obj [
       ("@type", .s "Review"),
       ("reviewRating", .obj [
         ("@type", .s "Rating"),
         ("ratingValue", .s "5")])])]),
  ("ShareAction", .obj [
     ("@context", .s "https://schema.org"),
     ("@type", .s "ShareAction"),
     ("agent", .obj [
       ("@type", .s "Person"),
       ("name", .s "Partageur")]),
     ("object", .obj [
       ("@type", .s "Article"),
       ("name", .s "Article partagé")])]),
  ("CreativeWork", .obj [
     ("@context", .s "https://schema.org"),
     ("@type", .s "CreativeWork"),
     ("name", .s "Œuvre créative"),
     ("author", .obj [
       ("@type", .s "Person"),
       ("name", .s "Auteur")]),
     ("datePublished", .s "2024-01-01")]),
  ("Article", .obj [
     ("@context", .s "https://schema.org"),
     ("@type", .s "Article"),
     ("headline", .s "Titre de l'article"),
     ("author", .obj [
       ("@type", .s "Person"),
       ("name", .s "Nom de l'auteur")]),
     ("datePublished", .s "2024-01-01"),
     ("dateModified", .s "2024-01-01"),
     ("image", .s "https://www.example.com/article-image.jpg"),
     ("publisher", .obj [
       ("@type", .s "Organization"),
       ("name", .s "Nom du site"),
       ("logo", .obj [
         ("@type", .s "ImageObject"),
         ("url", .s "https://www.example.com/logo.png")])])]),
  ("BlogPosting", .obj [
     ("@context", .s "https://schema.org"),
     ("@type", .s "BlogPosting"),
     ("headline", .s "Titre du blog post"),
     ("author", .obj [
       ("@type", .s "Person"),
       ("name", .s "Nom de l'auteur")]),
     ("datePublished", .s "2024-01-01"),
     ("image", .s "https://www.example.com/blog-image.jpg"),
     ("wordCount", .n 1500)]),
  ("NewsArticle", .obj [
     ("@context", .s "https://schema.org"),
     ("@type", .s "NewsArticle"),
     ("headline", .s "Titre de l'actualité"),
     ("author", .obj [
       ("@type", .s "Person"),
       ("name", .s "Journaliste")]),
     ("datePublished", .s "2024-01-01"),
     ("image", .s "https://www.example.com/news.jpg"),
     ("publisher", .obj [
       ("@type", .s "Organization"),
       ("name", .s "Média")])]),
  ("Recipe", .obj [
     ("@context", .s "https://schema.org"),
     ("@type", .s "Recipe"),
     ("name", .s "Nom de la recette"),
     ("author", .obj [
       ("@type", .s "Person"),
       ("name", .s "Chef")]),
     ("cookTime", .s "PT30M"),
     ("prepTime", .s "PT15M"),
     ("recipeYield", .s "4 portions"),
     ("recipeIngredient", .arr [
       .s "Ingrédient 1",
       .s "Ingrédient 2"]),
     ("recipeInstructions", .arr [
       .obj [
         ("@type", .s "HowToStep"),
         ("text", .s "Étape 1 de la recette")]]),
     ("nutrition", .obj [
       ("@type", .s "NutritionInformation"),
       ("calories", .s "300 calories")])]),
  ("Book", .obj [
     ("@context", .s "https://schema.org"),
     ("@type", .s "Book"),
     ("name", .s "Titre du livre"),
     ("author", .obj [
       ("@type", .s "Person"),
       ("name", .s "Auteur")]),
     ("isbn", .s "978-0123456789"),
     ("genre", .s "Fiction"),
     ("publisher", .obj [
       ("@type", .s "Organization"),
       ("name", .s "Maison d'édition")]),
     ("datePublished", .s "2024-01-01")]),
  ("Movie", .obj [
     ("@context", .s "https://schema.org"),
     ("@type", .s "Movie"),
     ("name", .s "Titre du film"),
     ("director", .obj [
       ("@type", .s "Person"),
       ("name", .s "Réalisateur")]),
     ("actor", .arr [
       .obj [
         ("@type", .s "Person"),
         ("name", .s "Acteur principal")]]),
     ("datePublished", .s "2024-01-01"),
     ("duration", .s "PT120M")]),
  ("VideoObject", .obj [
     ("@context", .s "https://schema.org"),
     ("@type", .s "VideoObject"),
     ("name", .s "Titre de la vidéo"),
     ("description", .s "Description de la vidéo"),
     ("uploadDate", .s "2024-01-01"),
     ("contentUrl", .s "https://www.example.com/video.mp4"),
     ("thumbnailUrl", .s "https://www.example.com/thumbnail.jpg"),
     ("duration", .s "PT10M")]),
  ("AudioObject", .obj [
     ("@context", .s "https://schema.org"),
     ("@type", .s "AudioObject"),
     ("name", .s "Titre de l'audio"),
     ("description", .s "Description de l'audio"),
     ("contentUrl", .s "https://www.example.com/audio.mp3"),
     ("duration", .s "PT5M")]),
  ("ImageObject", .obj [
     ("@context", .s "https://schema.org"),
     ("@type", .s "ImageObject"),
     ("name", .s "Titre de l'image"),
     ("description", .s "Description de l'image"),
     ("contentUrl", .s "https://www.example.com/image.jpg"),
     ("width", .s "1920"),
     ("height", .s "1080")]),
  ("Course", .obj [
     ("@context", .s "https://schema.org"),
     ("@type", .s "Course"),
     ("name", .s "Nom du cours"),
     ("description", .s "Description du cours"),
     ("provider", .obj [
       ("@type", .s "Organization"),
       ("name", .s "Organisme de formation")]),
     ("courseCode", .s "COURS101"),
     ("educationalLevel", .s "Débutant")]),
  ("Dataset", .obj [
     ("@context", .s "https://schema.org"),
     ("@type", .s "Dataset"),
     ("name", .s "Nom du jeu de données"),
     ("description", .s "Description du dataset"),
     ("creator", .obj [
       ("@type", .s "Organization"),
       ("name", .s "Créateur")]),
     ("dateModified", .s "2024-01-01"),
     ("license", .s "https://creativecommons.org/licenses/by/4.0/")]),
  ("WebSite", .obj [
     ("@context", .s "https://schema.org"),
     ("@type", .s "WebSite"),
     ("name", .s "Nom du site"),
     ("url", .s "https://www.example.com"),
     ("potentialAction", .obj [
       ("@type", .s "SearchAction"),
       ("target", .s "https://www.example.com/search?q=\x7bsearch_term_string\x7d"),
       ("query-input", .s "required name=search_term_string")])]),
  ("WebPage", .obj [
     ("@context", .s "https://schema.org"),
     ("@type", .s "WebPage"),
     ("name", .s "Titre de la page"),
     ("url", .s "https://www.example.com/page"),
     ("description", .s "Description de la page"),
     ("isPartOf", .obj [
       ("@type", .s "WebSite"),
       ("name", .s "Nom du site")])]),
  ("SoftwareApplication", .obj [
     ("@context", .s "https://schema.org"),
     ("@type", .s "SoftwareApplication"),
     ("name", .s "Nom de l'application"),
     ("applicationCategory", .s "BusinessApplication"),
     ("operatingSystem", .s "Windows, macOS, Linux"),
     ("offers", .obj [
       ("@type", .s "Offer"),
       ("price", .s "0"),
       ("priceCurrency", .s "EUR")])]),
  ("TVSeries", .obj [
     ("@context", .s "https://schema.org"),
     ("@type", .s "TVSeries"),
     ("name", .s "Nom de la série"),
     ("numberOfSeasons", .s "5"),
     ("numberOfEpisodes", .s "100"),
     ("genre", .s "Drame")]),
  ("Podcast", .obj [
     ("@context", .s "https://schema.org"),
     ("@type", .s "Podcast"),
     ("name", .s "Nom du podcast"),
     ("description", .s "Description du podcast"),
     ("author", .obj [
       ("@type", .s "Person"),
       ("name", .s "Créateur")])]),
  ("Event", .obj [
     ("@context", .s "https://schema.org"),
     ("@type", .s "Event"),
     ("name", .s "Nom de l'événement"),
     ("startDate", .s "2024-07-01T19:00:00+02:00"),
     ("endDate", .s "2024-07-01T22:00:00+02:00"),
     ("location", .obj [
       ("@type", .s "Place"),
       ("name", .s "Lieu de l'événement"),
       ("address", .obj [
         ("@type", .s "PostalAddress"),
         ("streetAddress", .s "123 Rue Example"),
         ("addressLocality", .s "Paris"),
         ("postalCode", .s "75001"),
         ("addressCountry", .s "FR")])]),
     ("organizer", .obj [
       ("@type", .s "Organization"),
       ("name", .s "Organisateur")])]),
  ("MusicEvent", .obj [
     ("@context", .s "https://schema.org"),
     ("@type", .s "MusicEvent"),
     ("name", .s "Concert"),
     ("startDate", .s "2024-07-01T20:00:00+02:00"),
     ("performer", .obj [
       ("@type", .s "MusicGroup"),
       ("name", .s "Nom du groupe")]),
     ("location", .obj [
       ("@type", .s "MusicVenue"),
       ("name", .s "Salle de concert")])]),
  ("SportsEvent", .obj [
     ("@context", .s "https://schema.org"),
     ("@type", .s "SportsEvent"),
     ("name", .s "Match de football"),
     ("startDate", .s "2024-07-01T15:00:00+02:00"),
     ("competitor", .arr [
       .obj [
         ("@type", .s "SportsTeam"),
         ("name", .s "Équipe A")],
       .obj [
         ("@type", .s "SportsTeam"),
         ("name", .s "Équipe B")]])]),
  ("BusinessEvent", .obj [
     ("@context", .s "https://schema.org"),
     ("@type", .s "BusinessEvent"),
     ("name", .s "Conférence d'affaires"),
     ("startDate", .s "2024-07-01T09:00:00+02:00"),
     ("organizer", .obj [
       ("@type", .s "Organization"),
       ("name", .s "Organisateur professionnel")])]),
  ("TheaterEvent", .obj [
     ("@context", .s "https://schema.org"),
     ("@type", .s "TheaterEvent"),
     ("name", .s "Pièce de théâtre"),
     ("startDate", .s "2024-07-01T20:00:00+02:00"),
     ("performer", .obj [
       ("@type", .s "Person"),
       ("name", .s "Acteur principal")])]),
  ("Festival", .obj [
     ("@context", .s "https://schema.org"),
     ("@type", .s "Festival"),
     ("name", .s "Festival de musique"),
     ("startDate", .s "2024-07-01"),
     ("endDate", .s "2024-07-03"),
     ("location", .obj [
       ("@type", .s "Place"),
       ("name", .s "Parc du festival")])]),
  ("Organization", .obj [
     ("@context", .s "https://schema.org"),
     ("@type", .s "Organization"),
     ("name", .s "Nom de votre organisation"),
     ("url", .s "https://www.example.com"),
     ("logo", .s "https://www.example.com/logo.png"),
     ("contactPoint", .obj [
       ("@type", .s "ContactPoint"),
       ("telephone", .s "+33-1-23-45-67-89"),
       ("contactType", .s "customer service")]),
     ("address", .obj [
       ("@type", .s "PostalAddress"),
       ("streetAddress", .s "123 Rue Example"),
       ("addressLocality", .s "Paris"),
       ("postalCode", .s "75001"),
       ("addressCountry", .s "FR")])]),
  ("LocalBusiness", .obj [
     ("@context", .s "https://schema.org"),
     ("@type", .s "LocalBusiness"),
     ("name", .s "Nom de votre entreprise"),
     ("image", .s "https://www.example.com/photo.jpg"),
     ("telephone", .s "+33-1-23-45-67-89"),
     ("address", .obj [
       ("@type", .s "PostalAddress"),
       ("streetAddress", .s "123 Rue Example"),
       ("addressLocality", .s "Paris"),
       ("postalCode", .s "75001"),
       ("addressCountry", .s "FR")]),
     ("openingHoursSpecification", .arr [
       .obj [
         ("@type", .s "OpeningHoursSpecification"),
         ("dayOfWeek", .arr [
           .s "Monday",
           .s "Tuesday",
           .s "Wednesday",
           .s "Thursday",
           .s "Friday"]),
         ("opens", .s "09:00"),
         ("closes", .s "18:00")]])]),
  ("Restaurant", .obj [
     ("@context", .s "https://schema.org"),
     ("@type", .s "Restaurant"),
     ("name", .s "Nom du restaurant"),
     ("image", .s "https://www.example.com/restaurant.jpg"),
     ("telephone", .s "+33-1-23-45-67-89"),
     ("address", .obj [
       ("@type", .s "PostalAddress"),
       ("streetAddress", .s "123 Rue Example"),
       ("addressLocality", .s "Paris"),
       ("postalCode", .s "75001"),
       ("addressCountry", .s "FR")]),
     ("servesCuisine", .s "Française"),
     ("priceRange", .s "€€"),
     ("menu", .s "https://www.example.com/menu")]),
  ("Store", .obj [
     ("@context", .s "https://schema.org"),
     ("@type", .s "Store"),
     ("name", .s "Nom du magasin"),
     ("image", .s "https://www.example.com/store.jpg"),
     ("telephone", .s "+33-1-23-45-67-89"),
     ("address", .obj [
       ("@type", .s "PostalAddress"),
       ("streetAddress", .s "123 Rue Example"),
       ("addressLocality", .s "Paris"),
       ("postalCode", .s "75001"),
       ("addressCountry", .s "FR")])]),
  ("Hospital", .obj [
     ("@context", .s "https://schema.org"),
     ("@type", .s "Hospital"),
     ("name", .s "Nom de l'hôpital"),
     ("address", .obj [
       ("@type", .s "PostalAddress"),
       ("streetAddress", .s "123 Rue Example"),
       ("addressLocality", .s "Paris"),
       ("postalCode", .s "75001"),
       ("addressCountry", .s "FR")]),
     ("telephone", .s "+33-1-23-45-67-89"),
     ("medicalSpecialty", .s "Médecine générale")]),
  ("School", .obj [
     ("@context", .s "https://schema.org"),
     ("@type", .s "School"),
     ("name", .s "Nom de l'école"),
     ("address", .obj [
       ("@type", .s "PostalAddress"),
       ("streetAddress", .s "123 Rue Example"),
       ("addressLocality", .s "Paris"),
       ("postalCode", .s "75001"),
       ("addressCountry", .s "FR")])]),
  ("University", .obj [
     ("@context", .s "https://schema.org"),
     ("@type", .s "University"),
     ("name", .s "Nom de l'université"),
     ("address", .obj [
       ("@type", .s "PostalAddress"),
       ("streetAddress", .s "123 Rue Example"),
       ("addressLocality", .s "Paris"),
       ("postalCode", .s "75001"),
       ("addressCountry", .s "FR")])]),
  ("NGO", .obj [
     ("@context", .s "https://schema.org"),
     ("@type", .s "NGO"),
     ("name", .s "Nom de l'ONG"),
     ("description", .s "Description de l'ONG"),
     ("url", .s "https://www.example.com")]),
  ("Person", .obj [
     ("@context", .s "https://schema.org"),
     ("@type", .s "Person"),
     ("name", .s "Prénom Nom"),
     ("jobTitle", .s "Titre du poste"),
     ("worksFor", .obj [
       ("@type", .s "Organization"),
       ("name", .s "Nom de l'organisation")]),
     ("url", .s "https://www.example.com/profile"),
     ("image", .s "https://www.example.com/photo.jpg"),
     ("email", .s "email@example.com"),
     ("telephone", .s "+33-1-23-45-67-89")]),
  ("Place", .obj [
     ("@context", .s "https://schema.org"),
     ("@type", .s "Place"),
     ("name", .s "Nom du lieu"),
     ("address", .obj [
       ("@type", .s "PostalAddress"),
       ("streetAddress", .s "123 Rue Example"),
       ("addressLocality", .s "Paris"),
       ("postalCode", .s "75001"),
       ("addressCountry", .s "FR")]),
     ("geo", .obj [
       ("@type", .s "GeoCoordinates"),
       ("latitude", .s "48.8566"),
       ("longitude", .s "2.3522")])]),
  ("TouristAttraction", .obj [
     ("@context", .s "https://schema.org"),
     ("@type", .s "TouristAttraction"),
     ("name", .s "Attraction touristique"),
     ("description", .s "Description de l'attraction"),
     ("address", .obj [
       ("@type", .s "PostalAddress"),
       ("addressLocality", .s "Paris"),
       ("addressCountry", .s "FR")])]),
  ("Accommodation", .obj [
     ("@context", .s "https://schema.org"),
     ("@type", .s "Accommodation"),
     ("name", .s "Nom de l'hébergement"),
     ("address", .obj [
       ("@type", .s "PostalAddress"),
       ("streetAddress", .s "123 Rue Example"),
       ("addressLocality", .s "Paris"),
       ("postalCode", .s "75001"),
       ("addressCountry", .s "FR")])]),
  ("Hotel", .obj [
     ("@context", .s "https://schema.org"),
     ("@type", .s "Hotel"),
     ("name", .s "Nom de l'hôtel"),
     ("address", .obj [
       ("@type", .s "PostalAddress"),
       ("streetAddress", .s "123 Rue Example"),
       ("addressLocality", .s "Paris"),
       ("postalCode", .s "75001"),
       ("addressCountry", .s "FR")]),
     ("checkinTime", .s "15:00"),
     ("checkoutTime", .s "11:00")]),
  ("Product", .obj [
     ("@context", .s "https://schema.org"),
     ("@type", .s "Product"),
     ("name", .s "Nom du produit"),
     ("image", .s "https://www.example.com/product.jpg"),
     ("description", .s "Description du produit"),
     ("brand", .obj [
       ("@type", .s "Brand"),
       ("name", .s "Marque")]),
     ("offers", .obj [
       ("@type", .s "Offer"),
       ("price", .s "29.99"),
       ("priceCurrency", .s "EUR"),
       ("availability", .s "https://schema.org/InStock"),
       ("seller", .obj [
         ("@type", .s "Organization"),
         ("name", .s "Vendeur")])]),
     ("aggregateRating", .obj [
       ("@type", .s "AggregateRating"),
       ("ratingValue", .s "4.5"),
       ("reviewCount", .s "123")])]),
  ("Service", .obj [
     ("@context", .s "https://schema.org"),
     ("@type", .s "Service"),
     ("name", .s "Nom du service"),
     ("description", .s "Description du service"),
     ("provider", .obj [
       ("@type", .s "Organization"),
       ("name", .s "Prestataire")]),
     ("areaServed", .s "Paris"),
     ("hasOfferCatalog", .obj [
       ("@type", .s "OfferCatalog"),
       ("name", .s "Catalogue de services")])]),
  ("Brand", .obj [
     ("@context", .s "https://schema.org"),
     ("@type", .s "Brand"),
     ("name", .s "Nom de la marque"),
     ("logo", .s "https://www.example.com/logo.png"),
     ("url", .s "https://www.example.com")]),
  ("Rating", .obj [
     ("@context", .s "https://schema.org"),
     ("@type", .s "Rating"),
     ("ratingValue", .s "4.5"),
     ("bestRating", .s "5"),
     ("worstRating", .s "1")]),
  ("Review", .obj [
     ("@context", .s "https://schema.org"),
     ("@type", .s "Review"),
     ("reviewBody", .s "Texte de l'avis"),
     ("reviewRating", .obj [
       ("@type", .s "Rating"),
       ("ratingValue", .s "5"),
       ("bestRating", .s "5")]),
     ("author", .obj [
       ("@type", .s "Person"),
       ("name", .s "Nom du reviewer")]),
     ("itemReviewed", .obj [
       ("@type", .s "Thing"),
       ("name", .s "Produit/Service évalué")])]),
  ("AggregateRating", .obj [
     ("@context", .s "https://schema.org"),
     ("@type", .s "AggregateRating"),
     ("ratingValue", .s "4.5"),
     ("reviewCount", .s "123"),
     ("bestRating", .s "5"),
     ("worstRating", .s "1")]),
  ("ContactPoint", .obj [
     ("@context", .s "https://schema.org"),
     ("@type", .s "ContactPoint"),
     ("telephone", .s "+33-1-23-45-67-89"),
     ("contactType", .s "customer service"),
     ("areaServed", .s "FR"),
     ("availableLanguage", .arr [
       .s "French",
       .s "English"])]),
  ("PostalAddress", .obj [
     ("@context", .s "https://schema.org"),
     ("@type", .s "PostalAddress"),
     ("streetAddress", .s "123 Rue Example"),
     ("addressLocality", .s "Paris"),
     ("postalCode", .s "75001"),
     ("addressCountry", .s "FR")]),
  ("GeoCoordinates", .obj [
     ("@context", .s "https://schema.org"),
     ("@type", .s "GeoCoordinates"),
     ("latitude", .s "48.8566"),
     ("longitude", .s "2.3522")]),
  ("Offer", .obj [
     ("@context", .s "https://schema.org"),
     ("@type", .s "Offer"),
     ("price", .s "29.99"),
     ("priceCurrency", .s "EUR"),
     ("availability", .s "https://schema.org/InStock"),
     ("validFrom", .s "2024-01-01"),
     ("validThrough", .s "2024-12-31")]),
  ("JobPosting", .obj [
     ("@context", .s "https://schema.org"),
     ("@type", .s "JobPosting"),
     ("title", .s "Intitulé du poste"),
     ("description", .s "Description du poste"),
     ("hiringOrganization", .obj [
       ("@type", .s "Organization"),
       ("name", .s "Nom de l'entreprise")]),
     ("jobLocation", .obj [
       ("@type", .s "Place"),
       ("address", .obj [
         ("@type", .s "PostalAddress"),
         ("addressLocality", .s "Paris"),
         ("addressCountry", .s "FR")])]),
     ("employmentType", .s "FULL_TIME"),
     ("datePosted", .s "2024-01-01")]),
  ("FAQPage", .obj [
     ("@context", .s "https://schema.org"),
     ("@type", .s "FAQPage"),
     ("mainEntity", .arr [
       .obj [
         ("@type", .s "Question"),
         ("name", .s "Question fréquente ?"),
         ("acceptedAnswer", .obj [
           ("@type", .s "Answer"),
           ("text", .s "Réponse à la question fréquente.")])]])]),
  ("HowTo", .obj [
     ("@context", .s "https://schema.org"),
     ("@type", .s "HowTo"),
     ("name", .s "Comment faire quelque chose"),
     ("description", .s "Description du tutoriel"),
     ("step", .arr [
       .obj [
         ("@type", .s "HowToStep"),
         ("text", .s "Première étape")],
       .obj [
         ("@type", .s "HowToStep"),
         ("text", .s "Deuxième étape")]])]),
  ("BreadcrumbList", .obj [
     ("@context", .s "https://schema.org"),
     ("@type", .s "BreadcrumbList"),
     ("itemListElement", .arr [
       .obj [
         ("@type", .s "ListItem"),
         ("position", .n 1),
         ("name", .s "Accueil"),
         ("item", .s "https://www.example.com")],
       .obj [
         ("@type", .s "ListItem"),
         ("position", .n 2),
         ("name", .s "Catégorie"),
         ("item", .s "https://www.example.com/category")],
       .obj [
         ("@type", .s "ListItem"),
         ("position", .n 3),
         ("name", .s "Page actuelle")]])]),
  ("ItemList", .obj [
     ("@context", .s "https://schema.org"),
     ("@type", .s "ItemList"),
     ("name", .s "Liste d'éléments"),
     ("itemListElement", .arr [
       .obj [
         ("@type", .s "ListItem"),
         ("position", .n 1),
         ("name", .s "Premier élément")],
       .obj [
         ("@type", .s "ListItem"),
         ("position", .n 2),
         ("name", .s "Deuxième élément")]])]),
  ("ListItem", .obj [
     ("@context", .s "https://schema.org"),
     ("@type", .s "ListItem"),
     ("position", .n 1),
     ("name", .s "Nom de l'élément"),
     ("item", .s "https://www.example.com/item")]),
  ("MedicalEntity", .obj [
     ("@context", .s "https://schema.org"),
     ("@type", .s "MedicalEntity"),
     ("name", .s "Entité médicale"),
     ("description", .s "Description médicale")]),
  ("MedicalCondition", .obj [
     ("@context", .s "https://schema.org"),
     ("@type", .s "MedicalCondition"),
     ("name", .s "Condition médicale"),
     ("description", .s "Description de la condition")]),
  ("Drug", .obj [
     ("@context", .s "https://schema.org"),
     ("@type", .s "Drug"),
     ("name", .s "Nom du médicament"),
     ("activeIngredient", .s "Principe actif")]),
  ("MedicalProcedure", .obj [
     ("@context", .s "https://schema.org"),
     ("@type", .s "MedicalProcedure"),
     ("name", .s "Procédure médicale"),
     ("description", .s "Description de la procédure")]),
  ("SocialMediaPosting", .obj [
     ("@context", .s "https://schema.org"),
     ("@type", .s "SocialMediaPosting"),
     ("headline", .s "Titre du post"),
     ("articleBody", .s "Contenu du post"),
     ("author", .obj [
       ("@type", .s "Person"),
       ("name", .s "Auteur")]),
     ("datePublished", .s "2024-01-01")]),
  ("Vehicle", .obj [
     ("@context", .s "https://schema.org"),
     ("@type", .s "Vehicle"),
     ("name", .s "Nom du véhicule"),
     ("brand", .obj [
       ("@type", .s "Brand"),
       ("name", .s "Marque")]),
     ("model", .s "Modèle"),
     ("vehicleModelDate", .s "2024")]),
  ("Car", .obj [
     ("@context", .s "https://schema.org"),
     ("@type", .s "Car"),
     ("name", .s "Voiture"),
     ("brand", .obj [
       ("@type", .s "Brand"),
       ("name", .s "Constructeur")]),
     ("model", .s "Modèle"),
     ("fuelType", .s "Essence")]),
  ("RealEstateListing", .obj [
     ("@context", .s "https://schema.org"),
     ("@type", .s "RealEstateListing"),
     ("name", .s "Annonce immobilière"),
     ("description", .s "Description du bien"),
     ("price", .s "250000"),
     ("priceCurrency", .s "EUR"),
     ("address", .obj [
       ("@type", .s "PostalAddress"),
       ("streetAddress", .s "123 Rue Example"),
       ("addressLocality", .s "Paris"),
       ("postalCode", .s "75001"),
       ("addressCountry", .s "FR")])]),
  ("House", .obj [
     ("@context", .s "https://schema.org"),
     ("@type", .s "House"),
     ("name", .s "Maison"),
     ("address", .obj [
       ("@type", .s "PostalAddress"),
       ("streetAddress", .s "123 Rue Example"),
       ("addressLocality", .s "Paris"),
       ("postalCode", .s "75001"),
       ("addressCountry", .s "FR")]),
     ("numberOfRooms", .s "5")]),
  ("Apartment", .obj [
     ("@context", .s "https://schema.org"),
     ("@type", .s "Apartment"),
     ("name", .s "Appartement"),
     ("address", .obj [
       ("@type", .s "PostalAddress"),
       ("streetAddress", .s "123 Rue Example"),
       ("addressLocality", .s "Paris"),
       ("postalCode", .s "75001"),
       ("addressCountry", .s "FR")]),
     ("numberOfRooms", .s "3")]),
  ("SportsTeam", .obj [
     ("@context", .s "https://schema.org"),
     ("@type", .s "SportsTeam"),
     ("name", .s "Nom de l'équipe"),
     ("sport", .s "Football"),
     ("location", .obj [
       ("@type", .s "Place"),
       ("name", .s "Ville")])]),
  ("SportsOrganization", .obj [
     ("@context", .s "https://schema.org"),
     ("@type", .s "SportsOrganization"),
     ("name", .s "Organisation sportive"),
     ("sport", .s "Football")]),
  ("Game", .obj [
     ("@context", .s "https://schema.org"),
     ("@type", .s "Game"),
     ("name", .s "Nom du jeu"),
     ("description", .s "Description du jeu"),
     ("genre", .s "Action")]),
  ("VideoGame", .obj [
     ("@context", .s "https://schema.org"),
     ("@type", .s "VideoGame"),
     ("name", .s "Nom du jeu vidéo"),
     ("description", .s "Description du jeu"),
     ("gamePlatform", .s "PC, PlayStation, Xbox")]),
  ("MusicGroup", .obj [
     ("@context", .s "https://schema.org"),
     ("@type", .s "MusicGroup"),
     ("name", .s "Nom du groupe"),
     ("genre", .s "Rock"),
     ("member", .arr [
       .obj [
         ("@type", .s "Person"),
         ("name", .s "Membre 1")]])]),
  ("MusicAlbum", .obj [
     ("@context", .s "https://schema.org"),
     ("@type", .s "MusicAlbum"),
     ("name", .s "Nom de l'album"),
     ("byArtist", .obj [
       ("@type", .s "MusicGroup"),
       ("name", .s "Artiste")]),
     ("datePublished", .s "2024-01-01")]),
  ("MusicRecording", .obj [
     ("@context", .s "https://schema.org"),
     ("@type", .s "MusicRecording"),
     ("name", .s "Titre de la chanson"),
     ("byArtist", .obj [
       ("@type", .s "MusicGroup"),
       ("name", .s "Artiste")]),
     ("duration", .s "PT3M30S")]),
  ("FinancialProduct", .obj [
     ("@context", .s "https://schema.org"),
     ("@type", .s "FinancialProduct"),
     ("name", .s "Produit financier"),
     ("description", .s "Description du produit")]),
  ("BankAccount", .obj [
     ("@context", .s "https://schema.org"),
     ("@type", .s "BankAccount"),
     ("name", .s "Compte bancaire"),
     ("provider", .obj [
       ("@type", .s "BankOrCreditUnion"),
       ("name", .s "Banque")])]),
  ("LoanOrCredit", .obj [
     ("@context", .s "https://schema.org"),
     ("@type", .s "LoanOrCredit"),
     ("name", .s "Prêt ou crédit"),
     ("amount", .obj [
       ("@type", .s "MonetaryAmount"),
       ("value", .s "10000"),
       ("currency", .s "EUR")])]),
  ("GovernmentOrganization", .obj [
     ("@context", .s "https://schema.org"),
     ("@type", .s "GovernmentOrganization"),
     ("name", .s "Organisation gouvernementale"),
     ("address", .obj [
       ("@type", .s "PostalAddress"),
       ("addressLocality", .s "Paris"),
       ("addressCountry", .s "FR")])]),
  ("GovernmentBuilding", .obj [
     ("@context", .s "https://schema.org"),
     ("@type", .s "GovernmentBuilding"),
     ("name", .s "Bâtiment gouvernemental"),
     ("address", .obj [
       ("@type", .s "PostalAddress"),
       ("addressLocality", .s "Paris"),
       ("addressCountry", .s "FR")])]),
  ("OpenGraph", .obj [
     ("@context", .s "https://schema.org"),
     ("@type", .s "WebPage"),
     ("name", .s "Titre de la page"),
     ("description", .s "Description pour les réseaux sociaux"),
     ("image", .s "https://www.example.com/og-image.jpg"),
     ("url", .s "https://www.example.com")]),
  ("TwitterCard", .obj [
     ("@context", .s "https://schema.org"),
     ("@type", .s "WebPage"),
     ("name", .s "Titre pour Twitter"),
     ("description", .s "Description pour Twitter"),
     ("image", .s "https://www.example.com/twitter-image.jpg")]),
  ("MetaTags", .obj [
     ("@context", .s "https://schema.org"),
     ("@type", .s "WebPage"),
     ("name", .s "Titre de la page"),
     ("description", .s "Meta description de la page"),
     ("keywords", .s "mot-clé1, mot-clé2, mot-clé3")])
]

/-- The object `get_schema_org_example` serializes: exact key hit, then the
first case-insensitive key hit, then the first key related to the input by
the two-way substring rule, then the synthesized generic example.  (The
source calls `json.dumps` in each branch on these same objects;
`get_schema_org_example` below composes the two steps.) -/
def get_schema_org_example_obj (data_type : String) : JValue :=
  match alistGet? examples data_type with
  | some v => v
  | none =>
    let data_type_lower := pyLower data_type
    match examples.find? (fun p => pyLower p.1 = data_type_lower) with
    | some p => p.2
    | none =>
      match examples.find? (fun p =>
          pyInStr data_type_lower (pyLower p.1) || pyInStr (pyLower p.1) data_type_lower) with
      | some p => p.2
      | none =>
        JValue.obj [
          ("@context", JValue.s "https://schema.org"),
          ("@type", JValue.s data_type),
          ("name", JValue.s ("Exemple de " ++ data_type)),
          ("description", JValue.s ("Description générique pour le type " ++ data_type)),
          ("url", JValue.s "https://www.example.com")]

/-- `get_schema_org_example`: the resolved example, serialized. -/
def get_schema_org_example (data_type : String) : String :=
  pyDumps (get_schema_org_example_obj data_type)

/-! ### The comparator (`compare_structured_data`). -/

/-- One row of the returned report (the per-type inner dict). -/
structure ReportEntry where
  competitors_with_data : List String
  example_from_competitor : Option String
  schema_org_example : String

/-- The comparator's result: missing type name to report row, in insertion
order. -/
abbrev Report : Type := List (String × ReportEntry)

/-- `missing_data[t]['competitors_with_data'].append(name)`. -/
def appendLabel (name : String) (e : ReportEntry) : ReportEntry :=
  ReportEntry.mk (e.competitors_with_data ++ [name]) e.example_from_competitor
    e.schema_org_example

/-- `missing_data[t]['example_from_competitor'] = ex`. -/
def setExample (ex : String) (e : ReportEntry) : ReportEntry :=
  ReportEntry.mk e.competitors_with_data (some ex) e.schema_org_example

/-- The body of the `for data_type in missing_types` loop: create the row on
first sight, append the competitor's label, and fill the competitor example
from the first flattened key containing the type when it is still unset.
(The final `none` arm is unreachable: the key was just inserted.) -/
def compareStep (competitorName : String) (competitorData : Inventory)
    (missingData : Report) (dataType : String) : Except String Report := do
  let md := if alistHas missingData dataType then missingData
    else alistPut missingData dataType
      (ReportEntry.mk [] none (get_schema_org_example dataType))
  let md := alistModify md dataType (appendLabel competitorName)
  match alistGet? md dataType with
  | some e =>
    match e.example_from_competitor with
    | some _ => pure md
    | none => do
      let flattened ← flatten_data_for_comparison competitorData
      let matchingKeys := (flattened.map Prod.fst).filter (fun k => pyInStr dataType k)
      match matchingKeys with
      | [] => pure md
      | k :: _ =>
        pure (alistModify md dataType
          (setExample (pyDumps ((alistGet? flattened k).getD JValue.null))))
  | none => pure md

/-- The body of the `for competitor_name, competitor_data in
competitors_data.items()` loop: one competitor folded into the state
(report, `all_competitor_types`). -/
def compareCompetitor (clientTypes : List String) (st : Report × List String)
    (c : String × Inventory) : Except String (Report × List String) := do
  let competitorTypes ← get_data_types_set c.2
  let allCompetitorTypes := setUnion st.2 competitorTypes
  let missingTypes := setDiff competitorTypes clientTypes
  let md ← missingTypes.foldlM (fun md t => compareStep c.1 c.2 md t) st.1
  pure (md, allCompetitorTypes)

/-- `compare_structured_data`: fold over the competitors in the supplied
order, accumulating the report (and the dead `all_competitor_types` set,
which the source computes but never reads). -/
def compare_structured_data (clientData : Inventory)
    (competitorsData : List (String × Inventory)) : Except String Report := do
  let clientTypes ← get_data_types_set clientData
  let st ← competitorsData.foldlM (compareCompetitor clientTypes) ([], [])
  pure st.1

/-! ### Statement-side characterizations.  These definitions are used to
state the verified properties; the theorems below relate them to the
embedded source functions. -/

/-- A field of a JSON object (`none` on a non-object). -/
def jType? (v : JValue) : Option JValue :=
  match v with
  | .obj fields => alistGet? fields "@type"
  | _ => none

/-- The competitor example the comparator would draw from one inventory for
one type: the value of the first flattened key containing the type,
serialized; `none` when no key matches. -/
def exampleFromInv (inv : Inventory) (T : String) : Except String (Option String) := do
  let flattened ← flatten_data_for_comparison inv
  match (flattened.map Prod.fst).filter (fun k => pyInStr T k) with
  | [] => pure none
  | k :: _ => pure (some (pyDumps ((alistGet? flattened k).getD JValue.null)))

/-- How one competitor that observes a missing type transforms that type's
report row: created on first sight (label, example lookup, canonical
example), later only the label appended — and the example looked up again
only while it is still unset. -/
def stepEntry (name : String) (inv : Inventory) (T : String) :
    Option ReportEntry → Except String ReportEntry
  | none =>
    (exampleFromInv inv T).map
      (fun ex => ReportEntry.mk [name] ex (get_schema_org_example T))
  | some e =>
    match e.example_from_competitor with
    | some _ => .ok (appendLabel name e)
    | none =>
      (exampleFromInv inv T).map
        (fun ex => ReportEntry.mk (e.competitors_with_data ++ [name]) ex
          e.schema_org_example)

/-- The report row for type `T` after the competitors `cs` are processed,
starting from row state `e0`: each competitor whose type set holds `T`,
with `T` absent from the client's types, applies `stepEntry`. -/
def entryFor (clientTypes : List String) (T : String) :
    List (String × Inventory) → Option ReportEntry → Except String (Option ReportEntry)
  | [], e0 => .ok e0
  | c :: rest, e0 => do
    let ts ← get_data_types_set c.2
    if ts.contains T && !clientTypes.contains T then do
      let e1 ← stepEntry c.1 c.2 T e0
      entryFor clientTypes T rest (some e1)
    else entryFor clientTypes T rest e0

/-- The labels of the competitors whose type set holds `T`, in the supplied
order. -/
def observerLabels (T : String) :
    List (String × Inventory) → Except String (List String)
  | [] => .ok []
  | c :: rest => do
    let ts ← get_data_types_set c.2
    let tail ← observerLabels T rest
    pure (if ts.contains T then c.1 :: tail else tail)

/-- The first competitor whose type set holds `T`. -/
def firstObserver (T : String) :
    List (String × Inventory) → Except String (Option (String × Inventory))
  | [] => .ok none
  | c :: rest => do
    let ts ← get_data_types_set c.2
    if ts.contains T then pure (some c) else firstObserver T rest

/-- The union of the competitors' type sets. -/
def unionCompetitorTypes (comps : List (String × Inventory)) :
    Except String (List String) :=
  comps.foldlM (fun ts c => (get_data_types_set c.2).map (setUnion ts)) []

/-- Whether the comparison report holds a top-level key (`false` also when
the comparison raises). -/
def reportHasKey (clientData : Inventory) (comps : List (String × Inventory))
    (k : String) : Bool :=
  match compare_structured_data clientData comps with
  | .ok r => alistHas r k
  | .error _ => false

/-- Whether the comparison returns (no exception raised). -/
def comparisonSucceeds (clientData : Inventory)
    (comps : List (String × Inventory)) : Bool :=
  match compare_structured_data clientData comps with
  | .ok _ => true
  | .error _ => false

/-- The report row at one key, when the comparison returns. -/
def reportEntry? (clientData : Inventory) (comps : List (String × Inventory))
    (k : String) : Option ReportEntry :=
  match compare_structured_data clientData comps with
  | .ok r => alistGet? r k
  | .error _ => none

/-- The per-record key/value stream of one format bucket, with the
disambiguation rule of `flatten_data_for_comparison`: the bare effective
type for a one-record bucket, `type_index` otherwise. -/
def bucketPairs (category : String) (l : List JValue) :
    Except String (List (String × JValue)) :=
  mapME (fun ix =>
    (effType ix.2 category).map
      (fun t => (if l.length > 1 then t ++ "_" ++ toString ix.1 else t, ix.2)))
    l.enum

/-- The whole inventory's key/value stream, bucket after bucket. -/
def streamPairs (sd : Inventory) : Except String (List (String × JValue)) :=
  (mapME (fun p => bucketPairs p.1 p.2) sd).map List.flatten

/-- The key stream alone. -/
def streamKeys (sd : Inventory) : Except String (List String) :=
  (streamPairs sd).map (fun ps => ps.map Prod.fst)

/-- First-occurrence deduplication (the key sequence of a dict built by
repeated insertion). -/
def firstDedup (l : List String) : List String :=
  l.foldl setAdd []

/-- The value of the last pair carrying a key (what repeated dict insertion
retains). -/
def lastVal? : List (String × JValue) → String → Option JValue
  | [], _ => none
  | p :: t, k =>
    match lastVal? t k with
    | some v => some v
    | none => if p.1 = k then some p.2 else none

/-- How many records an inventory holds. -/
def recordCount (sd : Inventory) : Nat :=
  (sd.map (fun p => p.2.length)).sum

/-! ### Concrete inputs used by the claim theorems. -/

/-- Scenario A reference: an `Article` without `publisher`. -/
def scenarioARef : Inventory :=
  [("JSON-LD", [JValue.obj [("@type", JValue.s "Article"), ("headline", JValue.s "T")]])]

/-- Scenario A competitor: an `Article` with `publisher`. -/
def scenarioAComp : Inventory :=
  [("JSON-LD", [JValue.obj [("@type", JValue.s "Article"), ("headline", JValue.s "T"),
    ("publisher", JValue.obj [("@type", JValue.s "Organization"),
      ("name", JValue.s "P")])]])]

/-- A document whose only structured data is a microdata element carrying a
scope marker and a type attribute but no property element. -/
def bareScopeDoc : List Node :=
  [Node.elem "div" [("itemscope", ""), ("itemtype", "https://schema.org/Article")] []]

/-- A bucket holding two records of two different types (each type occurs
once). -/
def twoTypesInv : Inventory :=
  [("JSON-LD", [JValue.obj [("@type", JValue.s "Article"), ("headline", JValue.s "A")],
    JValue.obj [("@type", JValue.s "Person"), ("name", JValue.s "B")]])]

/-- Scenario C document: one malformed JSON-LD block alongside one valid
block. -/
def scenarioCDoc : List Node :=
  [Node.elem "script" [("type", "application/ld+json")] [Node.text "\x7binvalid"],
   Node.elem "script" [("type", "application/ld+json")]
     [Node.text "\x7b\"@type\": \"Article\", \"headline\": \"T\"\x7d"]]

/-- A document whose JSON-LD script holds a top-level array with a bare
string element. -/
def bareStringDoc : List Node :=
  [Node.elem "script" [("type", "application/ld+json")] [Node.text "[\"hello\"]"]]

/-- Two singleton buckets whose records have the same effective type. -/
def dupTypeInv : Inventory :=
  [("JSON-LD", [JValue.obj [("@type", JValue.s "X"), ("a", JValue.s "1")]]),
   ("Microdata", [JValue.obj [("@type", JValue.s "X"), ("b", JValue.s "2")]])]

/-- Two competitors that both carry the type `Zq`, with different payloads. -/
def twoObserverComps : List (String × Inventory) :=
  [("Competitor 1", [("JSON-LD", [JValue.obj [("@type", JValue.s "Zq"),
      ("a", JValue.s "first")]])]),
   ("Competitor 2", [("JSON-LD", [JValue.obj [("@type", JValue.s "Zq"),
      ("a", JValue.s "second"), ("rich", JValue.s "more")]])])]

/-- Whether a value is a JSON object with at least one member (the shape of
every record `extract_microdata` keeps). -/
def isNonemptyObj : JValue → Bool
  | .obj (_ :: _) => true
  | _ => false

/-! ### Infrastructure lemmas: association lists, ordered sets, substrings. -/

theorem alistGet?_put_self {α : Type} (m : List (String × α)) (k : String) (v : α) :
    alistGet? (alistPut m k v) k = some v := by
  induction m with
  | nil => simp [alistPut, alistGet?]
  | cons p t ih =>
    by_cases h : p.1 = k
    · simp [alistPut, h, alistGet?]
    · simp [alistPut, h, alistGet?, ih]

theorem alistGet?_put_ne {α : Type} (m : List (String × α)) (k k' : String) (v : α)
    (h : k' ≠ k) : alistGet? (alistPut m k v) k' = alistGet? m k' := by
  induction m with
  | nil => simp [alistPut, alistGet?, Ne.symm h]
  | cons p t ih =>
    by_cases hp : p.1 = k
    · subst hp
      simp [alistPut, alistGet?, Ne.symm h]
    · by_cases hp' : p.1 = k'
      · simp [alistPut, hp, alistGet?, hp', h]
      · simp [alistPut, hp, alistGet?, hp', ih]

theorem alistHas_eq_isSome {α : Type} (m : List (String × α)) (k : String) :
    alistHas m k = (alistGet? m k).isSome := by
  induction m with
  | nil => simp [alistHas, alistGet?]
  | cons p t ih =>
    by_cases h : p.1 = k
    · simp [alistHas, alistGet?, h]
    · simp [alistHas, alistGet?, h, ← ih, List.any_eq]

theorem alistPut_map_fst {α : Type} (m : List (String × α)) (k : String) (v : α) :
    (alistPut m k v).map Prod.fst =
      if alistHas m k then m.map Prod.fst else m.map Prod.fst ++ [k] := by
  induction m with
  | nil => simp [alistPut, alistHas]
  | cons p t ih =>
    by_cases h : p.1 = k
    · simp [alistPut, h, alistHas]
    · have hb : (decide (p.1 = k)) = false := by simp [h]
      simp only [alistPut, if_neg h, List.map_cons, ih, alistHas, List.any_cons, hb,
        Bool.false_or]
      by_cases ht : t.any (fun p => decide (p.1 = k)) = true
      · simp [alistHas] at ht ⊢
        simp [ht]
      · simp [alistHas] at ht ⊢
        simp [ht]

theorem alistModify_map_fst {α : Type} (m : List (String × α)) (k : String)
    (f : α → α) : (alistModify m k f).map Prod.fst = m.map Prod.fst := by
  induction m with
  | nil => simp [alistModify]
  | cons p t ih =>
    by_cases h : p.1 = k
    · simp [alistModify, h]
    · simp [alistModify, h, ih]

theorem alistGet?_modify_self {α : Type} (m : List (String × α)) (k : String)
    (f : α → α) : alistGet? (alistModify m k f) k = (alistGet? m k).map f := by
  induction m with
  | nil => simp [alistModify, alistGet?]
  | cons p t ih =>
    by_cases h : p.1 = k
    · simp [alistModify, h, alistGet?]
    · simp [alistModify, h, alistGet?, ih]

theorem alistGet?_modify_ne {α : Type} (m : List (String × α)) (k k' : String)
    (f : α → α) (h : k' ≠ k) :
    alistGet? (alistModify m k f) k' = alistGet? m k' := by
  induction m with
  | nil => simp [alistModify, alistGet?]
  | cons p t ih =>
    by_cases hp : p.1 = k
    · subst hp
      simp [alistModify, alistGet?, Ne.symm h]
    · by_cases hp' : p.1 = k'
      · simp [alistModify, hp, alistGet?, hp', h]
      · simp [alistModify, hp, alistGet?, hp', ih]

theorem alistHas_put {α : Type} (m : List (String × α)) (k k' : String) (v : α) :
    alistHas (alistPut m k v) k' = (alistHas m k' || k = k') := by
  by_cases h : k' = k
  · subst h
    simp [alistHas_eq_isSome, alistGet?_put_self]
  · rw [alistHas_eq_isSome, alistGet?_put_ne m k k' v h, ← alistHas_eq_isSome]
    have : (k = k' : Bool) = false := by simp [Ne.symm h]
    simp [this]

theorem alistHas_modify {α : Type} (m : List (String × α)) (k k' : String)
    (f : α → α) : alistHas (alistModify m k f) k' = alistHas m k' := by
  by_cases h : k' = k
  · subst h
    simp [alistHas_eq_isSome, alistGet?_modify_self]
  · rw [alistHas_eq_isSome, alistGet?_modify_ne m k k' f h, ← alistHas_eq_isSome]

theorem alistModify_put {α : Type} (m : List (String × α)) (k : String) (v : α)
    (f : α → α) : alistModify (alistPut m k v) k f = alistPut m k (f v) := by
  induction m with
  | nil => simp [alistPut, alistModify]
  | cons p t ih =>
    by_cases h : p.1 = k
    · simp [alistPut, alistModify, h]
    · simp [alistPut, alistModify, h, ih]

theorem alistGet?_mem {α : Type} {m : List (String × α)} {k : String} {v : α}
    (h : alistGet? m k = some v) : (k, v) ∈ m := by
  induction m with
  | nil => simp [alistGet?] at h
  | cons p t ih =>
    by_cases hp : p.1 = k
    · simp only [alistGet?, if_pos hp] at h
      cases p
      simp only [Option.some.injEq] at h
      subst hp
      subst h
      exact List.mem_cons_self _ _
    · simp only [alistGet?, if_neg hp] at h
      exact List.mem_cons_of_mem _ (ih h)

theorem mem_setAdd {ts : List String} {t x : String} :
    x ∈ setAdd ts t ↔ x ∈ ts ∨ x = t := by
  unfold setAdd
  by_cases h : t ∈ ts
  · have hb : ts.contains t = true := by simpa using h
    rw [if_pos hb]
    constructor
    · exact Or.inl
    · rintro (hx | rfl)
      · exact hx
      · exact h
  · have hb : ¬ ts.contains t = true := by simpa using h
    rw [if_neg hb]
    simp

theorem setAdd_of_mem {ts : List String} {t : String} (h : t ∈ ts) :
    setAdd ts t = ts := by
  have hb : ts.contains t = true := by simpa using h
  unfold setAdd
  rw [if_pos hb]

theorem length_setAdd_le (ts : List String) (t : String) :
    (setAdd ts t).length ≤ ts.length + 1 := by
  unfold setAdd
  by_cases h : ts.contains t = true
  · rw [if_pos h]
    omega
  · rw [if_neg h]
    simp

theorem mem_foldl_setAdd {l : List String} {ts : List String} {x : String} :
    x ∈ l.foldl setAdd ts ↔ x ∈ ts ∨ x ∈ l := by
  induction l generalizing ts with
  | nil => simp
  | cons a l ih =>
    simp only [List.foldl_cons, ih, mem_setAdd, List.mem_cons]
    tauto

theorem length_foldl_setAdd_le (l : List String) (ts : List String) :
    (l.foldl setAdd ts).length ≤ ts.length + l.length := by
  induction l generalizing ts with
  | nil => simp
  | cons a l ih =>
    calc (l.foldl setAdd (setAdd ts a)).length ≤ (setAdd ts a).length + l.length :=
          ih (setAdd ts a)
      _ ≤ ts.length + 1 + l.length :=
          Nat.add_le_add_right (length_setAdd_le ts a) _
      _ = ts.length + (a :: l).length := by simp; omega

theorem length_foldl_setAdd_lt {l : List String} {ts : List String} {t : String}
    (hl : t ∈ l) (hts : t ∈ ts) :
    (l.foldl setAdd ts).length < ts.length + l.length := by
  induction l generalizing ts with
  | nil => simp at hl
  | cons a l ih =>
    rcases List.mem_cons.mp hl with rfl | hl'
    · rw [List.foldl_cons, setAdd_of_mem hts]
      calc (l.foldl setAdd ts).length ≤ ts.length + l.length :=
            length_foldl_setAdd_le l ts
        _ < ts.length + (t :: l).length := by simp
    · have hmem : t ∈ setAdd ts a := mem_setAdd.mpr (Or.inl hts)
      have h1 : (l.foldl setAdd (setAdd ts a)).length < (setAdd ts a).length + l.length :=
        ih hl' hmem
      have h2 := length_setAdd_le ts a
      simp only [List.foldl_cons, List.length_cons]
      omega

theorem mem_setUnion {a b : List String} {x : String} :
    x ∈ setUnion a b ↔ x ∈ a ∨ x ∈ b :=
  mem_foldl_setAdd

theorem mem_setDiff {a b : List String} {x : String} :
    x ∈ setDiff a b ↔ x ∈ a ∧ ¬ x ∈ b := by
  simp [setDiff]

theorem pyInStr_iff {a b : String} : pyInStr a b = true ↔ a.data <:+: b.data := by
  simp [pyInStr]

theorem pyInStr_refl (a : String) : pyInStr a a = true :=
  pyInStr_iff.mpr (List.infix_refl a.data)

theorem pyInStr_append_left {a s : String} (t : String)
    (h : pyInStr a s = true) : pyInStr a (s ++ t) = true := by
  rw [pyInStr_iff] at h ⊢
  obtain ⟨u, v, huv⟩ := h
  exact ⟨u, v ++ t.data, by simp [String.data_append, ← huv]⟩

theorem pyInStr_append_right {a t : String} (s : String)
    (h : pyInStr a t = true) : pyInStr a (s ++ t) = true := by
  rw [pyInStr_iff] at h ⊢
  obtain ⟨u, v, huv⟩ := h
  exact ⟨s.data ++ u, v, by simp [String.data_append, ← huv]⟩

theorem pyInStr_pyJoin {sep : String} {ss : List String} {t : String} (h : t ∈ ss) :
    pyInStr t (pyJoin sep ss) = true := by
  induction ss with
  | nil => simp at h
  | cons x xs ih =>
    cases xs with
    | nil =>
      simp at h
      subst h
      exact pyInStr_refl t
    | cons y ys =>
      rcases List.mem_cons.mp h with rfl | h'
      · show pyInStr t (t ++ sep ++ pyJoin sep (y :: ys)) = true
        rw [String.append_assoc]
        exact pyInStr_append_left _ (pyInStr_refl t)
      · show pyInStr t (x ++ sep ++ pyJoin sep (y :: ys)) = true
        exact pyInStr_append_right _ (ih h')

theorem alistHas_eq_contains {α : Type} (m : List (String × α)) (k : String) :
    alistHas m k = (m.map Prod.fst).contains k := by
  induction m with
  | nil => simp [alistHas]
  | cons p t ih =>
    simp only [alistHas, List.any_cons, List.map_cons, List.contains_cons] at *
    rw [ih]
    by_cases h : p.1 = k
    · simp [h]
    · have h2 : ¬ k = p.1 := fun hh => h hh.symm
      simp [h, h2]

theorem setAdd_eq_alistPut_keys {α : Type} (m : List (String × α)) (k : String)
    (v : α) : (alistPut m k v).map Prod.fst = setAdd (m.map Prod.fst) k := by
  rw [alistPut_map_fst, setAdd, alistHas_eq_contains]

theorem map_fst_foldl_put (ps : List (String × JValue))
    (m : List (String × JValue)) :
    (ps.foldl (fun m q => alistPut m q.1 q.2) m).map Prod.fst =
      (ps.map Prod.fst).foldl setAdd (m.map Prod.fst) := by
  induction ps generalizing m with
  | nil => simp
  | cons q ps ih =>
    simp only [List.foldl_cons, List.map_cons]
    rw [ih, setAdd_eq_alistPut_keys]

theorem alistGet?_foldl_put (ps : List (String × JValue))
    (m : List (String × JValue)) (k : String) :
    alistGet? (ps.foldl (fun m q => alistPut m q.1 q.2) m) k =
      (match lastVal? ps k with
       | some v => some v
       | none => alistGet? m k) := by
  induction ps generalizing m with
  | nil => simp [lastVal?]
  | cons q ps ih =>
    simp only [List.foldl_cons, lastVal?]
    rw [ih]
    cases hl : lastVal? ps k with
    | some v => simp
    | none =>
      by_cases hq : q.1 = k
      · subst hq
        simp [alistGet?_put_self]
      · simp only [if_neg hq]
        exact alistGet?_put_ne m q.1 k q.2 (fun h => hq h.symm)

theorem lastVal?_append (a b : List (String × JValue)) (k : String) :
    lastVal? (a ++ b) k =
      (match lastVal? b k with
       | some v => some v
       | none => lastVal? a k) := by
  induction a with
  | nil =>
    cases hl : lastVal? b k <;> simp [lastVal?, hl]
  | cons p a ih =>
    simp only [List.cons_append, lastVal?, List.append_eq]
    rw [ih]
    cases hl : lastVal? b k with
    | some v => simp
    | none => cases ha : lastVal? a k <;> simp

theorem lastVal?_eq_none (ps : List (String × JValue)) (k : String)
    (h : ¬ k ∈ ps.map Prod.fst) : lastVal? ps k = none := by
  induction ps with
  | nil => rfl
  | cons p t ih =>
    simp only [List.map_cons, List.mem_cons] at h
    push_neg at h
    have h3 : ¬ p.1 = k := fun hh => h.1 (Eq.symm hh)
    simp [lastVal?, ih h.2, h3]

theorem mapME_append {α β : Type} (f : α → Except String β) (a b : List α) :
    mapME f (a ++ b) =
      (match mapME f a with
       | .error e => .error e
       | .ok xs => (mapME f b).map (fun ys => xs ++ ys)) := by
  induction a with
  | nil =>
    cases hb : mapME f b <;> simp [mapME, hb, Except.map]
  | cons x a ih =>
    simp only [List.cons_append, List.append_eq, mapME]
    rw [ih]
    cases hf : f x with
    | error e => simp [Bind.bind, Except.bind]
    | ok y =>
      cases ha : mapME f a with
      | error e => simp [Bind.bind, Except.bind]
      | ok xs =>
        cases hb : mapME f b <;>
          simp [Bind.bind, Except.bind, Except.map, pure, Except.pure]

theorem mapME_length {α β : Type} {f : α → Except String β} {l : List α}
    {r : List β} (h : mapME f l = .ok r) : r.length = l.length := by
  induction l generalizing r with
  | nil =>
    simp only [mapME] at h
    cases h
    rfl
  | cons x xs ih =>
    simp only [mapME] at h
    cases hf : f x with
    | error e => rw [hf] at h; exact absurd h (by simp [Bind.bind, Except.bind])
    | ok y =>
      rw [hf] at h
      cases hxs : mapME f xs with
      | error e => rw [hxs] at h; exact absurd h (by simp [Bind.bind, Except.bind])
      | ok ys =>
        rw [hxs] at h
        simp only [Bind.bind, Except.bind, pure, Except.pure, Except.ok.injEq] at h
        subst h
        simp [ih hxs]

theorem except_bind_ok {α β : Type} (a : α) (f : α → Except String β) :
    (Except.ok a >>= f) = f a := rfl

theorem except_bind_error {α β : Type} (e : String) (f : α → Except String β) :
    ((Except.error e : Except String α) >>= f) = .error e := rfl

theorem except_map_ok {α β : Type} (a : α) (f : α → β) :
    (Except.ok a : Except String α).map f = .ok (f a) := rfl

theorem except_map_error {α β : Type} (e : String) (f : α → β) :
    (Except.error e : Except String α).map f = (.error e : Except String β) := rfl

theorem except_pure_eq {α : Type} (a : α) :
    (pure a : Except String α) = .ok a := rfl

theorem except_pure_bind {α β : Type} (a : α) (f : α → Except String β) :
    ((pure a : Except String α) >>= f) = f a := rfl

theorem except_map_map {α β γ : Type} (e : Except String α) (f : α → β) (g : β → γ) :
    (e.map f).map g = e.map (fun x => g (f x)) := by
  cases e <;> rfl

theorem foldlM_put_eq_mapME (cat : String) (κ : String → Nat → String)
    (e : List (Nat × JValue)) (m : List (String × JValue)) :
    e.foldlM (fun fl ix => do
        let dataType ← effType ix.2 cat
        pure (alistPut fl (κ dataType ix.1) ix.2)) m
      = (mapME (fun ix => (effType ix.2 cat).map (fun t => (κ t ix.1, ix.2))) e).map
          (fun ps => ps.foldl (fun acc q => alistPut acc q.1 q.2) m) := by
  induction e generalizing m with
  | nil => simp [mapME, Except.map, except_pure_eq]
  | cons ix e ih =>
    cases heff : effType ix.2 cat with
    | error er =>
      simp only [List.foldlM_cons, mapME, heff, except_bind_error, except_map_error]
    | ok t =>
      simp only [List.foldlM_cons, mapME, heff, except_bind_ok, except_map_ok,
        except_pure_bind]
      rw [ih]
      cases hm : mapME (fun ix => (effType ix.2 cat).map (fun t => (κ t ix.1, ix.2))) e with
      | error er =>
        simp only [hm, except_map_error, except_bind_error]
      | ok ps =>
        simp only [hm, except_bind_ok, except_pure_eq, except_map_ok, List.foldl_cons]

theorem flatten_bucket_eq (cat : String) (l : List JValue)
    (m : List (String × JValue)) :
    l.enum.foldlM (fun fl ix => do
        let dataType ← effType ix.2 cat
        pure (alistPut fl
          (if l.length > 1 then dataType ++ "_" ++ toString ix.1 else dataType)
          ix.2)) m
      = (bucketPairs cat l).map
          (fun ps => ps.foldl (fun acc q => alistPut acc q.1 q.2) m) :=
  foldlM_put_eq_mapME cat
    (fun t i => if l.length > 1 then t ++ "_" ++ toString i else t) l.enum m

theorem flatten_fold_eq (sd : Inventory) (m : List (String × JValue)) :
    sd.foldlM
      (fun flattened p =>
        p.2.enum.foldlM
          (fun flattened ix => do
            let dataType ← effType ix.2 p.1
            pure (alistPut flattened
              (if p.2.length > 1 then dataType ++ "_" ++ toString ix.1 else dataType)
              ix.2))
          flattened)
      m
      = (mapME (fun p => bucketPairs p.1 p.2) sd).map
          (fun ls => ls.flatten.foldl (fun acc q => alistPut acc q.1 q.2) m) := by
  induction sd generalizing m with
  | nil => simp [mapME, Except.map, except_pure_eq]
  | cons p sd ih =>
    simp only [List.foldlM_cons]
    rw [flatten_bucket_eq]
    cases hb : bucketPairs p.1 p.2 with
    | error er =>
      simp only [mapME, hb, except_map_error, except_bind_error]
    | ok ps =>
      simp only [mapME, hb, except_map_ok, except_bind_ok, except_pure_bind]
      rw [ih]
      cases hm : mapME (fun p => bucketPairs p.1 p.2) sd with
      | error er =>
        simp only [hm, except_map_error, except_bind_error]
      | ok ls =>
        simp only [hm, except_bind_ok, except_pure_eq, except_map_ok,
          List.flatten_cons, List.foldl_append]

theorem flatten_eq_stream (sd : Inventory) :
    flatten_data_for_comparison sd
      = (streamPairs sd).map
          (fun ps => ps.foldl (fun acc q => alistPut acc q.1 q.2) []) := by
  rw [flatten_data_for_comparison, flatten_fold_eq, streamPairs, except_map_map]

theorem streamPairs_keys {sd : Inventory} {ps : List (String × JValue)}
    (h : streamPairs sd = .ok ps) : streamKeys sd = .ok (ps.map Prod.fst) := by
  rw [streamKeys, h]
  rfl

theorem bucketPairs_length {cat : String} {l : List JValue}
    {ps : List (String × JValue)} (h : bucketPairs cat l = .ok ps) :
    ps.length = l.length := by
  have := mapME_length h
  simpa using this

theorem streamPairs_ok_parts {sd : Inventory} {ps : List (String × JValue)}
    (h : streamPairs sd = .ok ps) :
    ∃ ls, mapME (fun p => bucketPairs p.1 p.2) sd = .ok ls ∧ ps = ls.flatten := by
  rw [streamPairs] at h
  cases hm : mapME (fun p => bucketPairs p.1 p.2) sd with
  | error er => rw [hm] at h; exact absurd h (by simp [Except.map])
  | ok ls =>
    rw [hm] at h
    simp only [except_map_ok, Except.ok.injEq] at h
    exact ⟨ls, rfl, h.symm⟩

theorem streamPairs_length {sd : Inventory} {ps : List (String × JValue)}
    (h : streamPairs sd = .ok ps) : ps.length = recordCount sd := by
  induction sd generalizing ps with
  | nil =>
    simp only [streamPairs, mapME, except_map_ok, Except.ok.injEq] at h
    subst h
    rfl
  | cons p sd ih =>
    obtain ⟨ls, hm, hps⟩ := streamPairs_ok_parts h
    simp only [mapME] at hm
    cases hb : bucketPairs p.1 p.2 with
    | error er => rw [hb] at hm; exact absurd hm (by simp [Bind.bind, Except.bind])
    | ok y =>
      rw [hb] at hm
      cases hrest : mapME (fun p => bucketPairs p.1 p.2) sd with
      | error er =>
        rw [hrest] at hm
        exact absurd hm (by simp [Bind.bind, Except.bind])
      | ok ys =>
        rw [hrest] at hm
        simp only [except_bind_ok, except_pure_eq, Except.ok.injEq] at hm
        subst hm
        subst hps
        have htail : streamPairs sd = .ok ys.flatten := by
          rw [streamPairs, hrest]
          rfl
        have := ih htail
        simp only [List.flatten_cons, List.length_append, this,
          bucketPairs_length hb, recordCount, List.map_cons, List.sum_cons]

theorem streamPairs_append {a b : Inventory} {ps : List (String × JValue)}
    (h : streamPairs (a ++ b) = .ok ps) :
    ∃ xs ys, streamPairs a = .ok xs ∧ streamPairs b = .ok ys ∧ ps = xs ++ ys := by
  obtain ⟨ls, hm, hps⟩ := streamPairs_ok_parts h
  rw [mapME_append] at hm
  cases ha : mapME (fun p => bucketPairs p.1 p.2) a with
  | error er => rw [ha] at hm; exact absurd hm (by simp)
  | ok xs =>
    rw [ha] at hm
    cases hb : mapME (fun p => bucketPairs p.1 p.2) b with
    | error er =>
      rw [hb] at hm
      exact absurd hm (by simp [Except.map])
    | ok ys =>
      rw [hb] at hm
      simp only [except_map_ok, Except.ok.injEq] at hm
      refine ⟨xs.flatten, ys.flatten, ?_, ?_, ?_⟩
      · rw [streamPairs, ha]; rfl
      · rw [streamPairs, hb]; rfl
      · rw [hps, ← hm, List.flatten_append]

theorem streamPairs_singleton {c : String} {d : JValue} {t : String}
    (h : effType d c = .ok t) : streamPairs [(c, [d])] = .ok [(t, d)] := by
  simp [streamPairs, mapME, bucketPairs, List.enum, h, except_map_ok, except_bind_ok,
    except_pure_eq, List.enumFrom]

/-! ### Claim C4. -/

/-- C4, counterexample: in a bucket holding an `Article` record and a
`Person` record, each type occurs once, yet both records are keyed with the
positional suffix (`Article_0`, `Person_1`) and the bare key `Article` is
absent — refuting the claim that a type occurring once in its bucket gets
the unsuffixed key. -/
theorem c4_counterexample :
    flatten_data_for_comparison twoTypesInv =
      .ok [("Article_0", JValue.obj [("@type", JValue.s "Article"),
              ("headline", JValue.s "A")]),
           ("Person_1", JValue.obj [("@type", JValue.s "Person"),
              ("name", JValue.s "B")])]
    ∧ (match flatten_data_for_comparison twoTypesInv with
       | .ok fl => alistHas fl "Article"
       | .error _ => true) = false :=
  ⟨rfl, rfl⟩

/-- C4, amended: a record is keyed by its bare effective type exactly when
its format bucket holds exactly one record; in a bucket with several
records every record's key is `type_i` with `i` the record's position
(`bucketPairs` states this rule); the index's key sequence is the
first-occurrence deduplication of that key stream. -/
theorem c4_key_rule (sd : Inventory) (fl : List (String × JValue))
    (ks : List String) (h1 : flatten_data_for_comparison sd = .ok fl)
    (h2 : streamKeys sd = .ok ks) : fl.map Prod.fst = firstDedup ks := by
  rw [flatten_eq_stream] at h1
  cases hsp : streamPairs sd with
  | error er => rw [hsp] at h1; exact absurd h1 (by simp [Except.map])
  | ok ps =>
    rw [hsp] at h1
    simp only [except_map_ok, Except.ok.injEq] at h1
    have hks : ks = ps.map Prod.fst := by
      have h3 := streamPairs_keys hsp
      rw [h2] at h3
      simpa using h3
    subst h1 hks
    rw [map_fst_foldl_put, firstDedup]
    rfl

/-- C4 witness: the key rule evaluated on the two-record bucket. -/
theorem c4_key_rule_witness :
    (match flatten_data_for_comparison twoTypesInv with
      | .ok fl => fl.map Prod.fst
      | .error _ => []) = firstDedup ["Article_0", "Person_1"] :=
  c4_key_rule twoTypesInv
    [("Article_0", JValue.obj [("@type", JValue.s "Article"),
        ("headline", JValue.s "A")]),
     ("Person_1", JValue.obj [("@type", JValue.s "Person"),
        ("name", JValue.s "B")])]
    ["Article_0", "Person_1"] rfl rfl

/-! ### Claim C9. -/

/-- C9: two singleton buckets whose records share an effective type both
produce the bare key `t`; provided no other record after the first of the
two writes `t`, the flattened index retains only the later bucket's record,
and the index is strictly smaller than the inventory's record count. -/
theorem c9_last_writer_wins (pre mid post : Inventory) (c1 c2 : String)
    (d1 d2 : JValue) (t : String) (fl : List (String × JValue))
    (kmid kpost : List String)
    (hfl : flatten_data_for_comparison
      (pre ++ [(c1, [d1])] ++ mid ++ [(c2, [d2])] ++ post) = .ok fl)
    (h1 : effType d1 c1 = .ok t) (h2 : effType d2 c2 = .ok t)
    (hm : streamKeys mid = .ok kmid) (hp : streamKeys post = .ok kpost)
    (hmt : ¬ t ∈ kmid) (hpt : ¬ t ∈ kpost) :
    alistGet? fl t = some d2 ∧
      fl.length < recordCount (pre ++ [(c1, [d1])] ++ mid ++ [(c2, [d2])] ++ post) := by
  rw [flatten_eq_stream] at hfl
  cases hsp : streamPairs (pre ++ [(c1, [d1])] ++ mid ++ [(c2, [d2])] ++ post) with
  | error er => rw [hsp] at hfl; exact absurd hfl (by simp [Except.map])
  | ok ps =>
    rw [hsp] at hfl
    simp only [except_map_ok, Except.ok.injEq] at hfl
    obtain ⟨xs4, ypost, hx4, hpost, hps4⟩ := streamPairs_append hsp
    obtain ⟨xs3, yd2, hx3, hd2, hps3⟩ := streamPairs_append hx4
    obtain ⟨xs2, ymid, hx2, hmid, hps2⟩ := streamPairs_append hx3
    obtain ⟨xpre, yd1, hpre, hd1, hps1⟩ := streamPairs_append hx2
    have hyd1 : yd1 = [(t, d1)] := by
      rw [streamPairs_singleton h1] at hd1
      exact (by simpa using hd1 : [(t, d1)] = yd1).symm
    have hyd2 : yd2 = [(t, d2)] := by
      rw [streamPairs_singleton h2] at hd2
      exact (by simpa using hd2 : [(t, d2)] = yd2).symm
    have hkmid : kmid = ymid.map Prod.fst := by
      have h3 := streamPairs_keys hmid
      rw [hm] at h3
      simpa using h3
    have hkpost : kpost = ypost.map Prod.fst := by
      have h3 := streamPairs_keys hpost
      rw [hp] at h3
      simpa using h3
    have hmidnone : lastVal? ymid t = none :=
      lastVal?_eq_none ymid t (by rw [← hkmid]; exact hmt)
    have hpostnone : lastVal? ypost t = none :=
      lastVal?_eq_none ypost t (by rw [← hkpost]; exact hpt)
    have hdecomp : ps = xpre ++ [(t, d1)] ++ ymid ++ [(t, d2)] ++ ypost := by
      rw [hps4, hps3, hps2, hps1, hyd1, hyd2]
    constructor
    · subst hfl
      rw [alistGet?_foldl_put]
      have hlast : lastVal? ps t = some d2 := by
        rw [hdecomp]
        rw [lastVal?_append _ ypost t, hpostnone]
        rw [lastVal?_append _ [(t, d2)] t]
        simp [lastVal?]
      rw [hlast]
    · subst hfl
      have hlen : (ps.foldl (fun acc q => alistPut acc q.1 q.2) []).length
          = ((ps.map Prod.fst).foldl setAdd []).length := by
        have := map_fst_foldl_put ps []
        calc (ps.foldl (fun acc q => alistPut acc q.1 q.2) []).length
            = ((ps.foldl (fun acc q => alistPut acc q.1 q.2) []).map Prod.fst).length := by
              simp
          _ = ((ps.map Prod.fst).foldl setAdd []).length := by rw [this]; rfl
      rw [hlen]
      have hkeys : ps.map Prod.fst
          = (xpre.map Prod.fst ++ [t]) ++ (ymid.map Prod.fst ++ [t] ++ ypost.map Prod.fst) := by
        rw [hdecomp]
        simp
      have hfold : (List.foldl setAdd [] (ps.map Prod.fst)).length
          = (List.foldl setAdd (List.foldl setAdd [] (xpre.map Prod.fst ++ [t]))
              (ymid.map Prod.fst ++ [t] ++ ypost.map Prod.fst)).length := by
        rw [hkeys, List.foldl_append]
      have hts0 : t ∈ (xpre.map Prod.fst ++ [t]).foldl setAdd [] :=
        mem_foldl_setAdd.mpr (Or.inr (by simp))
      have htrest : t ∈ ymid.map Prod.fst ++ [t] ++ ypost.map Prod.fst := by simp
      have hlt := length_foldl_setAdd_lt htrest hts0
      have hle := length_foldl_setAdd_le (xpre.map Prod.fst ++ [t]) []
      have hcount : ps.length = recordCount
          (pre ++ [(c1, [d1])] ++ mid ++ [(c2, [d2])] ++ post) :=
        streamPairs_length hsp
      rw [← hcount]
      have hpslen : ps.length
          = xpre.length + 1 + ymid.length + 1 + ypost.length := by
        rw [hdecomp]
        simp only [List.length_append, List.length_cons, List.length_nil]
      have hl1 : (xpre.map Prod.fst ++ [t]).length = xpre.length + 1 := by simp
      have hl2 : (ymid.map Prod.fst ++ [t] ++ ypost.map Prod.fst).length
          = ymid.length + 1 + ypost.length := by
        simp only [List.length_append, List.length_cons, List.length_nil,
          List.length_map]
      rw [hl1] at hle
      rw [hl2] at hlt
      simp only [List.length_nil] at hle
      omega

/-- C9 witness: the two singleton buckets of `dupTypeInv` collapse onto the
key `X`, keeping the `Microdata` record; the index has 1 entry for 2
records. -/
theorem c9_last_writer_wins_witness :
    alistGet? [("X", JValue.obj [("@type", JValue.s "X"), ("b", JValue.s "2")])] "X"
        = some (JValue.obj [("@type", JValue.s "X"), ("b", JValue.s "2")]) ∧
      ([("X", JValue.obj [("@type", JValue.s "X"), ("b", JValue.s "2")])] :
          List (String × JValue)).length
        < recordCount (([] : Inventory)
            ++ [("JSON-LD", [JValue.obj [("@type", JValue.s "X"), ("a", JValue.s "1")]])]
            ++ [] ++ [("Microdata", [JValue.obj [("@type", JValue.s "X"),
                  ("b", JValue.s "2")]])] ++ []) :=
  c9_last_writer_wins [] [] [] "JSON-LD" "Microdata"
    (JValue.obj [("@type", JValue.s "X"), ("a", JValue.s "1")])
    (JValue.obj [("@type", JValue.s "X"), ("b", JValue.s "2")])
    "X" [("X", JValue.obj [("@type", JValue.s "X"), ("b", JValue.s "2")])] [] []
    rfl rfl rfl rfl rfl (by simp) (by simp)

/-! ### Claim C10. -/

theorem mapME_tagStrings (ss : List String) :
    mapME (fun tag =>
      match tag with
      | JValue.s t => Except.ok t
      | _ => Except.error "TypeError: sequence item: expected str")
      (ss.map JValue.s) = .ok ss := by
  induction ss with
  | nil => rfl
  | cons x xs ih =>
    simp only [List.map_cons, mapME, ih, except_bind_ok, except_pure_eq]

theorem foldlM_tagStrings (ss : List String) (ts : List String) :
    (ss.map JValue.s).foldlM
      (fun ts tag =>
        match tag with
        | JValue.s t => Except.ok (setAdd ts t)
        | JValue.arr _ => Except.error "TypeError: unhashable type: list"
        | JValue.obj _ => Except.error "TypeError: unhashable type: dict"
        | _ => Except.error "non-string tag in @type list: outside modelled fragment")
      ts = .ok (ss.foldl setAdd ts) := by
  induction ss generalizing ts with
  | nil => rfl
  | cons x xs ih =>
    simp only [List.map_cons, List.foldlM_cons, List.foldl_cons, except_bind_ok, ih]

/-- C10: a record whose `@type` is a list of tags is keyed under the
comma-plus-space join of its tags (one key for the record, not one per
tag), while `get_data_types_set` adds each tag individually; each tag is a
substring of the joined key, with or without the positional suffix, so the
comparator's substring-based example lookup still matches the record. -/
theorem c10_list_typed_record (fields : List (String × JValue)) (cat : String)
    (ss ts : List String) (i : Nat) (t : String)
    (h : alistGet? fields "@type" = some (JValue.arr (ss.map JValue.s)))
    (ht : t ∈ ss) :
    effType (JValue.obj fields) cat = .ok (pyJoin ", " ss) ∧
      addRecordTypes ts (JValue.obj fields) cat = .ok (ss.foldl setAdd ts) ∧
      pyInStr t (pyJoin ", " ss) = true ∧
      pyInStr t (pyJoin ", " ss ++ "_" ++ toString i) = true := by
  refine ⟨?_, ?_, ?_, ?_⟩
  · simp only [effType, h, mapME_tagStrings, except_map_ok]
  · simp only [addRecordTypes, h, foldlM_tagStrings]
  · exact pyInStr_pyJoin ht
  · rw [String.append_assoc]
    exact pyInStr_append_left _ (pyInStr_pyJoin ht)

/-- C10 witness: the rule evaluated on a record typed
`["Article", "Person"]`. -/
theorem c10_list_typed_record_witness :
    effType (JValue.obj [("@type", JValue.arr [JValue.s "Article", JValue.s "Person"])])
        "JSON-LD" = .ok (pyJoin ", " ["Article", "Person"]) ∧
      addRecordTypes [] (JValue.obj [("@type",
          JValue.arr [JValue.s "Article", JValue.s "Person"])]) "JSON-LD"
        = .ok (["Article", "Person"].foldl setAdd []) ∧
      pyInStr "Person" (pyJoin ", " ["Article", "Person"]) = true ∧
      pyInStr "Person" (pyJoin ", " ["Article", "Person"] ++ "_" ++ toString 1) = true :=
  c10_list_typed_record [("@type", JValue.arr [JValue.s "Article", JValue.s "Person"])]
    "JSON-LD" ["Article", "Person"] [] 1 "Person" rfl (by simp)

/-! ### Claim C3. -/

/-- C3, counterexample: the microdata element of `bareScopeDoc` carries a
scope marker and a type attribute but no property element, yet its record —
holding only the `@type` tag and zero properties — is kept and enters the
inventory, refuting the claim that such records are discarded. -/
theorem c3_counterexample :
    extract_structured_data bareScopeDoc
        = [("Microdata", [JValue.obj [("@type", JValue.s "Article")]])] ∧
      (([("@type", JValue.s "Article")] : List (String × JValue)).filter
          (fun p => !(p.1 = "@type" : Bool))).length = 0 :=
  ⟨rfl, rfl⟩

/-- C3, amended: `extract_microdata` discards a record only when it is
entirely empty — no type tag and no property; every kept record is a
non-empty object, and a record holding only its `@type` tag is kept. -/
theorem c3_kept_records_nonempty (doc : List Node) (r : JValue)
    (hr : r ∈ extract_microdata doc) : isNonemptyObj r = true := by
  have main : ∀ (items : List Node) (acc : List JValue),
      (∀ x ∈ acc, isNonemptyObj x = true) →
      ∀ x ∈ items.foldl
        (fun acc item =>
          let itemData := microdataItem item
          if itemData.isEmpty then acc else acc ++ [JValue.obj itemData]) acc,
      isNonemptyObj x = true := by
    intro items
    induction items with
    | nil =>
      intro acc hacc x hx
      exact hacc x hx
    | cons item rest ih =>
      intro acc hacc x hx
      simp only [List.foldl_cons] at hx
      refine ih _ ?_ x hx
      intro y hy
      by_cases hempty : (microdataItem item).isEmpty
      · simp only [hempty, if_pos] at hy
        exact hacc y hy
      · simp only [hempty, if_neg, Bool.false_eq_true, not_false_eq_true,
          List.mem_append] at hy
        rcases hy with hy | hy
        · exact hacc y hy
        · have hys : y = JValue.obj (microdataItem item) := by simpa using hy
          subst hys
          cases hmd : microdataItem item with
          | nil => rw [hmd] at hempty; exact absurd rfl hempty
          | cons f t => simp [isNonemptyObj]
  rw [extract_microdata] at hr
  exact main _ [] (by simp) r hr

/-- C3 witness: the amended invariant evaluated on the kept type-only
record of `bareScopeDoc`. -/
theorem c3_kept_records_nonempty_witness :
    isNonemptyObj (JValue.obj [("@type", JValue.s "Article")]) = true :=
  c3_kept_records_nonempty bareScopeDoc (JValue.obj [("@type", JValue.s "Article")])
    (by rw [show extract_microdata bareScopeDoc
          = [JValue.obj [("@type", JValue.s "Article")]] from rfl]
        exact List.mem_singleton.mpr rfl)

/-! ### Claim C7. -/

theorem extract_json_ld_fold (scripts : List Node) (acc : List JValue) :
    scripts.foldl
      (fun acc script =>
        match json_loads ((nodeString? script).getD "") with
        | none => acc
        | some (.arr l) => acc ++ l
        | some v => acc ++ [v])
      acc
    = acc ++ (scripts.map (fun s => ldBlockRecords (nodeString? s))).flatten := by
  induction scripts generalizing acc with
  | nil => simp
  | cons script rest ih =>
    simp only [List.foldl_cons, List.map_cons, List.flatten_cons]
    rw [ih]
    cases hj : json_loads ((nodeString? script).getD "") with
    | none => simp [ldBlockRecords, hj]
    | some v =>
      cases v <;> simp [ldBlockRecords, hj]

/-- C7: `extract_json_ld` never raises (it is a total function of the
document); each JSON-LD block contributes independently — the whole result
is the concatenation of the per-block records, a block that fails to parse
contributing nothing and a parsed top-level array contributing one record
per element — and on Scenario C (one malformed block `\x7binvalid`
alongside one valid object block) exactly one record is extracted. -/
theorem c7_jsonld_block_independence :
    (∀ doc : List Node, extract_json_ld doc
      = ((ldScripts doc).map (fun s => ldBlockRecords (nodeString? s))).flatten) ∧
    (∀ st : Option String, ∀ l : List JValue,
      json_loads (st.getD "") = some (JValue.arr l) → ldBlockRecords st = l) ∧
    extract_structured_data scenarioCDoc
      = [("JSON-LD", [JValue.obj [("@type", JValue.s "Article"),
          ("headline", JValue.s "T")]])] := by
  refine ⟨fun doc => ?_, fun st l h => ?_, rfl⟩
  · rw [extract_json_ld, extract_json_ld_fold]
    rfl
  · simp [ldBlockRecords, h]

/-- C7 witness: block independence evaluated on Scenario C, and the array
fan-out rule on a concrete two-element array block. -/
theorem c7_jsonld_block_independence_witness :
    extract_json_ld scenarioCDoc
      = ((ldScripts scenarioCDoc).map (fun s => ldBlockRecords (nodeString? s))).flatten
    ∧ ldBlockRecords (some "[\"a\", \"b\"]") = [JValue.s "a", JValue.s "b"] :=
  ⟨c7_jsonld_block_independence.1 scenarioCDoc,
   c7_jsonld_block_independence.2.1 (some "[\"a\", \"b\"]")
     [JValue.s "a", JValue.s "b"] rfl⟩

/-! ### Claim C8. -/

/-- C8: on a JSON-LD script whose top-level array holds a bare string,
extraction succeeds — the bare string is kept as a record — while the
comparison fails: flattening the competitor inventory for the example
lookup calls `.get` on the non-mapping record (`AttributeError`). -/
theorem c8_extraction_ok_compare_raises :
    extract_structured_data bareStringDoc = [("JSON-LD", [JValue.s "hello"])] ∧
    compare_structured_data (extract_structured_data [])
        [("Competitor 1", extract_structured_data bareStringDoc)]
      = .error "AttributeError: object has no attribute get" :=
  ⟨rfl, rfl⟩

/-! ### Claim C1. -/

/-- C1, counterexample: with the reference holding `Article` without
`publisher` and the competitor holding `Article` with `publisher`
(Scenario A), the report is empty — there is no
`Article (missing properties)` row, refuting the claimed property-level
comparison. -/
theorem c1_counterexample :
    compare_structured_data scenarioARef [("Competitor 1", scenarioAComp)] = .ok [] ∧
    reportHasKey scenarioARef [("Competitor 1", scenarioAComp)]
        "Article (missing properties)" = false :=
  ⟨rfl, rfl⟩

/-! ### Claim C6. -/

theorem examples_values_typed :
    examples.all (fun p => (jType? p.2).isSome) = true := rfl

/-- C6: the resolver is total — every resolved object carries an
`@type`-equivalent field — and on any non-empty input matching no table key
exactly, case-insensitively, or by the two-way substring rule, the resolved
object is the synthesized generic example whose `@type` equals the input
verbatim, with placeholder `name`, `description` and `url` fields. -/
theorem c6_resolver_totality_and_fallback :
    (∀ s, (jType? (get_schema_org_example_obj s)).isSome = true) ∧
    (∀ s, s ≠ "" →
      alistGet? examples s = none →
      examples.find? (fun p => pyLower p.1 = pyLower s) = none →
      examples.find? (fun p => pyInStr (pyLower s) (pyLower p.1)
        || pyInStr (pyLower p.1) (pyLower s)) = none →
      get_schema_org_example_obj s = JValue.obj [
        ("@context", JValue.s "https://schema.org"),
        ("@type", JValue.s s),
        ("name", JValue.s ("Exemple de " ++ s)),
        ("description", JValue.s ("Description générique pour le type " ++ s)),
        ("url", JValue.s "https://www.example.com")] ∧
      jType? (get_schema_org_example_obj s) = some (JValue.s s)) := by
  constructor
  · intro s
    cases hx : alistGet? examples s with
    | some v =>
      have hmem := alistGet?_mem hx
      have hv := List.all_eq_true.mp examples_values_typed _ hmem
      simp only [get_schema_org_example_obj, hx]
      simpa using hv
    | none =>
      cases hf1 : examples.find? (fun p => pyLower p.1 = pyLower s) with
      | some p =>
        have hmem := List.mem_of_find?_eq_some hf1
        have hv := List.all_eq_true.mp examples_values_typed _ hmem
        simp only [get_schema_org_example_obj, hx, hf1]
        simpa using hv
      | none =>
        cases hf2 : examples.find? (fun p => pyInStr (pyLower s) (pyLower p.1)
            || pyInStr (pyLower p.1) (pyLower s)) with
        | some p =>
          have hmem := List.mem_of_find?_eq_some hf2
          have hv := List.all_eq_true.mp examples_values_typed _ hmem
          simp only [get_schema_org_example_obj, hx, hf1, hf2]
          simpa using hv
        | none =>
          simp only [get_schema_org_example_obj, hx, hf1, hf2]
          simp [jType?, alistGet?]
  · intro s _ h1 h2 h3
    constructor
    · simp only [get_schema_org_example_obj, h1, h2, h3]
    · simp only [get_schema_org_example_obj, h1, h2, h3]
      simp [jType?, alistGet?]

/-- C6 witness: totality at a table key, and the verbatim fallback at the
unmatched input `Zorblatt9`. -/
theorem c6_resolver_witness :
    (jType? (get_schema_org_example_obj "Thing")).isSome = true ∧
    get_schema_org_example_obj "Zorblatt9" = JValue.obj [
      ("@context", JValue.s "https://schema.org"),
      ("@type", JValue.s "Zorblatt9"),
      ("name", JValue.s ("Exemple de " ++ "Zorblatt9")),
      ("description", JValue.s ("Description générique pour le type " ++ "Zorblatt9")),
      ("url", JValue.s "https://www.example.com")] ∧
    jType? (get_schema_org_example_obj "Zorblatt9") = some (JValue.s "Zorblatt9") :=
  ⟨c6_resolver_totality_and_fallback.1 "Thing",
   (c6_resolver_totality_and_fallback.2 "Zorblatt9" (by simp) rfl rfl rfl).1,
   (c6_resolver_totality_and_fallback.2 "Zorblatt9" (by simp) rfl rfl rfl).2⟩

/-! ### The comparator's step characterization. -/

theorem alistModify_comp {α : Type} (m : List (String × α)) (k : String)
    (f g : α → α) :
    alistModify (alistModify m k f) k g = alistModify m k (fun x => g (f x)) := by
  induction m with
  | nil => simp [alistModify]
  | cons p t ih =>
    by_cases h : p.1 = k
    · simp [alistModify, h]
    · simp [alistModify, h, ih]

theorem alistModify_congr {α : Type} {m : List (String × α)} {k : String} {e : α}
    (f : α → α) (h : alistGet? m k = some e) :
    alistModify m k f = alistModify m k (fun _ => f e) := by
  induction m with
  | nil => simp [alistModify]
  | cons p t ih =>
    by_cases hp : p.1 = k
    · simp only [alistGet?, if_pos hp, Option.some.injEq] at h
      subst h
      simp [alistModify, hp]
    · simp only [alistGet?, if_neg hp] at h
      simp [alistModify, hp, ih h]

theorem compareStep_eq (name : String) (inv : Inventory) (md : Report)
    (T : String) :
    compareStep name inv md T =
      (stepEntry name inv T (alistGet? md T)).map (fun e' =>
        if alistHas md T then alistModify md T (fun _ => e')
        else alistPut md T e') := by
  cases hget : alistGet? md T with
  | none =>
    have hhas : alistHas md T = false := by
      rw [alistHas_eq_isSome, hget]
      rfl
    simp only [compareStep, hhas, Bool.false_eq_true, if_false,
      alistModify_put, alistGet?_put_self]
    simp only [stepEntry, exampleFromInv, appendLabel]
    cases hfl : flatten_data_for_comparison inv with
    | error er =>
      rfl
    | ok fl =>
      simp only [except_bind_ok]
      cases hmk : List.filter (fun k => pyInStr T k) (List.map Prod.fst fl) with
      | nil => rfl
      | cons k tail => rfl
  | some e =>
    have hhas : alistHas md T = true := by
      rw [alistHas_eq_isSome, hget]
      rfl
    simp only [compareStep, hhas, if_true]
    rw [alistGet?_modify_self, hget]
    simp only [Option.map_some']
    cases hex : e.example_from_competitor with
    | some x =>
      simp only [stepEntry, appendLabel, hex]
      rw [alistModify_congr (appendLabel name) hget]
      simp only [appendLabel]
      rw [hex]
      rfl
    | none =>
      simp only [stepEntry, appendLabel, hex, exampleFromInv]
      cases hfl : flatten_data_for_comparison inv with
      | error er =>
        rfl
      | ok fl =>
        simp only [except_bind_ok]
        cases hmk : List.filter (fun k => pyInStr T k) (List.map Prod.fst fl) with
        | nil =>
          rw [alistModify_congr (appendLabel name) hget]
          rw [show appendLabel name e
            = ReportEntry.mk (e.competitors_with_data ++ [name]) none
                e.schema_org_example from by rw [appendLabel, hex]]
          rfl
        | cons k tail =>
          show pure (alistModify (alistModify md T (appendLabel name)) T
              (setExample (pyDumps ((alistGet? fl k).getD JValue.null))))
            = Except.map (fun e' => alistModify md T fun _ => e')
              (Except.map (fun ex => ReportEntry.mk
                  (e.competitors_with_data ++ [name]) ex e.schema_org_example)
                (pure (some (pyDumps ((alistGet? fl k).getD JValue.null)))))
          rw [alistModify_comp, alistModify_congr _ hget]
          simp only [setExample, appendLabel]
          rfl

theorem except_map_ok_inv {α β : Type} {e : Except String α} {f : α → β} {b : β}
    (h : e.map f = .ok b) : ∃ a, e = .ok a ∧ b = f a := by
  cases e with
  | error er => exact absurd h (by simp [Except.map])
  | ok a =>
    refine ⟨a, rfl, ?_⟩
    simpa [Except.map] using h.symm

theorem foldlM_cons_ok {α β : Type} {f : β → α → Except String β} {x : α}
    {l : List α} {b : β} {r : β} (h : (x :: l).foldlM f b = .ok r) :
    ∃ b', f b x = .ok b' ∧ l.foldlM f b' = .ok r := by
  rw [List.foldlM_cons] at h
  cases hf : f b x with
  | error er => rw [hf] at h; exact absurd h (by simp [Bind.bind, Except.bind])
  | ok b' =>
    rw [hf] at h
    exact ⟨b', rfl, h⟩

theorem stepResult_get_self (md : Report) (T : String) (e' : ReportEntry) :
    alistGet? (if alistHas md T then alistModify md T (fun _ => e')
      else alistPut md T e') T = some e' := by
  by_cases h : alistHas md T = true
  · rw [if_pos h, alistGet?_modify_self]
    rw [alistHas_eq_isSome] at h
    cases hget : alistGet? md T with
    | none => rw [hget] at h; simp at h
    | some x => simp
  · rw [if_neg h, alistGet?_put_self]

theorem stepResult_get_ne (md : Report) (T k : String) (e' : ReportEntry)
    (hk : k ≠ T) :
    alistGet? (if alistHas md T then alistModify md T (fun _ => e')
      else alistPut md T e') k = alistGet? md k := by
  by_cases h : alistHas md T = true
  · rw [if_pos h, alistGet?_modify_ne _ _ _ _ hk]
  · rw [if_neg h, alistGet?_put_ne _ _ _ _ hk]

theorem innerFold_entry (name : String) (inv : Inventory) :
    ∀ (mts : List String) (md md' : Report), mts.Nodup →
      mts.foldlM (fun md t => compareStep name inv md t) md = .ok md' →
      ∀ T, (T ∈ mts → ∃ e', stepEntry name inv T (alistGet? md T) = .ok e'
              ∧ alistGet? md' T = some e')
        ∧ (¬ T ∈ mts → alistGet? md' T = alistGet? md T) := by
  intro mts
  induction mts with
  | nil =>
    intro md md' _ h T
    simp only [List.foldlM_nil] at h
    cases h
    exact ⟨fun hT => absurd hT (List.not_mem_nil T), fun _ => rfl⟩
  | cons t mts ih =>
    intro md md' hnodup h T
    obtain ⟨md1, hstep, hrest⟩ := foldlM_cons_ok h
    rw [compareStep_eq] at hstep
    obtain ⟨e1, hse, hmd1⟩ := except_map_ok_inv hstep
    have hget1self : alistGet? md1 t = some e1 := by
      rw [hmd1]; exact stepResult_get_self md t e1
    have hget1ne : ∀ k, k ≠ t → alistGet? md1 k = alistGet? md k := by
      intro k hk
      rw [hmd1]; exact stepResult_get_ne md t k e1 hk
    have hnd := List.nodup_cons.mp hnodup
    have ihspec := ih md1 md' hnd.2 hrest
    constructor
    · intro hT
      rcases List.mem_cons.mp hT with rfl | hT'
      · refine ⟨e1, hse, ?_⟩
        rw [(ihspec T).2 hnd.1, hget1self]
      · have hTne : T ≠ t := fun hh => hnd.1 (hh ▸ hT')
        obtain ⟨e', hse', hget'⟩ := (ihspec T).1 hT'
        rw [hget1ne T hTne] at hse'
        exact ⟨e', hse', hget'⟩
    · intro hT
      have hTne : T ≠ t := fun hh => hT (hh ▸ List.mem_cons_self t mts)
      have hTnm : ¬ T ∈ mts := fun hh => hT (List.mem_cons_of_mem t hh)
      rw [(ihspec T).2 hTnm, hget1ne T hTne]

theorem foldlM_preserve {α β : Type} {P : β → Prop} {f : β → α → Except String β}
    (hstep : ∀ b a b', P b → f b a = .ok b' → P b') :
    ∀ (l : List α) (b r : β), P b → l.foldlM f b = .ok r → P r := by
  intro l
  induction l with
  | nil =>
    intro b r hb h
    simp only [List.foldlM_nil] at h
    cases h
    exact hb
  | cons x xs ih =>
    intro b r hb h
    obtain ⟨b', hx, hrest⟩ := foldlM_cons_ok h
    exact ih b' r (hstep b x b' hb hx) hrest

theorem setAdd_nodup {ts : List String} {t : String} (h : ts.Nodup) :
    (setAdd ts t).Nodup := by
  unfold setAdd
  by_cases hc : ts.contains t = true
  · rw [if_pos hc]
    exact h
  · rw [if_neg hc]
    have : ¬ t ∈ ts := by simpa using hc
    simp [List.nodup_append, h, this]

theorem addRecordTypes_nodup {ts ts' : List String} {d : JValue} {c : String}
    (hnd : ts.Nodup) (h : addRecordTypes ts d c = .ok ts') : ts'.Nodup := by
  cases d with
  | obj fields =>
    simp only [addRecordTypes] at h
    cases halist : alistGet? fields "@type" with
    | none =>
      rw [halist] at h
      cases h
      exact setAdd_nodup hnd
    | some v =>
      rw [halist] at h
      cases v with
      | s t =>
        cases h
        exact setAdd_nodup hnd
      | arr tags =>
        refine foldlM_preserve ?_ tags ts ts' hnd h
        intro b a b' hb hab
        cases a with
        | s t => cases hab; exact setAdd_nodup hb
        | n v => exact absurd hab (by simp)
        | b v => exact absurd hab (by simp)
        | null => exact absurd hab (by simp)
        | arr l => exact absurd hab (by simp)
        | obj l => exact absurd hab (by simp)
      | n v => exact absurd h (by simp)
      | b v => exact absurd h (by simp)
      | null => exact absurd h (by simp)
      | obj l => exact absurd h (by simp)
  | s text =>
    simp only [addRecordTypes] at h
    by_cases hin : pyInStr "@type" text = true
    · rw [if_pos hin] at h
      exact absurd h (by simp)
    · rw [if_neg hin] at h
      cases h
      exact setAdd_nodup hnd
  | arr elems =>
    simp only [addRecordTypes] at h
    by_cases hin : elems.any isAtTypeStr = true
    · rw [if_pos hin] at h
      exact absurd h (by simp)
    · rw [if_neg hin] at h
      cases h
      exact setAdd_nodup hnd
  | n v => exact absurd h (by simp [addRecordTypes])
  | b v => exact absurd h (by simp [addRecordTypes])
  | null => exact absurd h (by simp [addRecordTypes])

theorem get_data_types_set_nodup {sd : Inventory} {ts : List String}
    (h : get_data_types_set sd = .ok ts) : ts.Nodup := by
  refine foldlM_preserve ?_ sd [] ts List.nodup_nil h
  intro b p b' hb hp
  refine foldlM_preserve ?_ p.2 b b' hb hp
  intro b2 d b2' hb2 hd
  exact addRecordTypes_nodup hb2 hd

theorem compareCompetitor_ok_inv {ct : List String} {st : Report × List String}
    {c : String × Inventory} {st1 : Report × List String}
    (h : compareCompetitor ct st c = .ok st1) :
    ∃ ts md1, get_data_types_set c.2 = .ok ts ∧
      (setDiff ts ct).foldlM (fun md t => compareStep c.1 c.2 md t) st.1 = .ok md1 ∧
      st1 = (md1, setUnion st.2 ts) := by
  rw [compareCompetitor] at h
  cases hts : get_data_types_set c.2 with
  | error er => rw [hts] at h; exact absurd h (by simp [Bind.bind, Except.bind])
  | ok ts =>
    rw [hts] at h
    simp only [except_bind_ok] at h
    cases hmd : (setDiff ts ct).foldlM (fun md t => compareStep c.1 c.2 md t) st.1 with
    | error er => rw [hmd] at h; exact absurd h (by simp [Bind.bind, Except.bind])
    | ok md1 =>
      rw [hmd] at h
      simp only [except_bind_ok, except_pure_eq, Except.ok.injEq] at h
      exact ⟨ts, md1, rfl, hmd, h.symm⟩

theorem compareFold_entry (ct : List String) :
    ∀ (cs : List (String × Inventory)) (st res : Report × List String),
      cs.foldlM (compareCompetitor ct) st = .ok res →
      ∀ T, entryFor ct T cs (alistGet? st.1 T) = .ok (alistGet? res.1 T) := by
  intro cs
  induction cs with
  | nil =>
    intro st res h T
    simp only [List.foldlM_nil] at h
    cases h
    rfl
  | cons c cs ih =>
    intro st res h T
    obtain ⟨st1, hc, hrest⟩ := foldlM_cons_ok h
    obtain ⟨ts, md1, hts, hmd, hst1⟩ := compareCompetitor_ok_inv hc
    have hnodup : (setDiff ts ct).Nodup :=
      (get_data_types_set_nodup hts).filter _
    have hinner := innerFold_entry c.1 c.2 (setDiff ts ct) st.1 md1 hnodup hmd
    rw [entryFor, hts]
    simp only [except_bind_ok]
    by_cases hcond : (ts.contains T && !ct.contains T) = true
    · rw [if_pos hcond]
      have hmem : T ∈ setDiff ts ct := by
        rw [mem_setDiff]
        simpa using hcond
      obtain ⟨e', hse, hget⟩ := (hinner T).1 hmem
      rw [hse]
      simp only [except_bind_ok]
      have := ih st1 res hrest T
      rw [hst1] at this
      simp only at this
      rw [hget] at this
      exact this
    · rw [if_neg hcond]
      have hnmem : ¬ T ∈ setDiff ts ct := by
        rw [mem_setDiff]
        intro hx
        exact hcond (by simpa using hx)
      have hpres := (hinner T).2 hnmem
      have := ih st1 res hrest T
      rw [hst1] at this
      simp only at this
      rw [hpres] at this
      exact this

theorem enumFrom_foldlM {α β : Type} (g : β → α → Except String β) :
    ∀ (l : List α) (i : Nat) (b : β),
      (List.enumFrom i l).foldlM (fun b ix => g b ix.2) b = l.foldlM g b := by
  intro l
  induction l with
  | nil => intro i b; rfl
  | cons x xs ih =>
    intro i b
    simp only [List.enumFrom_cons, List.foldlM_cons]
    cases hg : g b x with
    | error er => rfl
    | ok b' =>
      simp only [except_bind_ok]
      exact ih (i + 1) b'

theorem tagsFold_ok {tags : List JValue} {ts0 ts : List String}
    (h : tags.foldlM
      (fun ts tag =>
        match tag with
        | JValue.s t => Except.ok (setAdd ts t)
        | JValue.arr _ => Except.error "TypeError: unhashable type: list"
        | JValue.obj _ => Except.error "TypeError: unhashable type: dict"
        | _ => Except.error "non-string tag in @type list: outside modelled fragment")
      ts0 = .ok ts) :
    ∃ ss : List String, tags = ss.map JValue.s ∧ ts = ss.foldl setAdd ts0 := by
  induction tags generalizing ts0 with
  | nil =>
    simp only [List.foldlM_nil] at h
    cases h
    exact ⟨[], rfl, rfl⟩
  | cons tag tags ih =>
    obtain ⟨ts1, htag, hrest⟩ := foldlM_cons_ok h
    cases tag with
    | s t =>
      simp only [Except.ok.injEq] at htag
      subst htag
      obtain ⟨ss, hss, hts⟩ := ih hrest
      exact ⟨t :: ss, by simp [hss], by simp [hts]⟩
    | n v => exact absurd htag (by simp)
    | b v => exact absurd htag (by simp)
    | null => exact absurd htag (by simp)
    | arr l => exact absurd htag (by simp)
    | obj l => exact absurd htag (by simp)

theorem record_cover {ts0 ts : List String} {t : String} {d : JValue} {c : String}
    (ht : addRecordTypes ts0 d c = .ok ts) (he : effType d c = .ok t) :
    ∀ T ∈ ts, T ∈ ts0 ∨ pyInStr T t = true := by
  intro T hT
  cases d with
  | obj fields =>
    simp only [addRecordTypes] at ht
    simp only [effType] at he
    cases halist : alistGet? fields "@type" with
    | none =>
      rw [halist] at ht he
      cases ht
      cases he
      rcases mem_setAdd.mp hT with h | h
      · exact Or.inl h
      · subst h
        exact Or.inr (pyInStr_refl T)
    | some v =>
      rw [halist] at ht he
      cases v with
      | s t0 =>
        cases ht
        cases he
        rcases mem_setAdd.mp hT with h | h
        · exact Or.inl h
        · subst h
          exact Or.inr (pyInStr_refl T)
      | arr tags =>
        simp only [] at ht he
        obtain ⟨ss, hss, hts⟩ := tagsFold_ok ht
        subst hss
        rw [mapME_tagStrings] at he
        simp only [except_map_ok, Except.ok.injEq] at he
        subst hts
        rcases mem_foldl_setAdd.mp hT with h | h
        · exact Or.inl h
        · exact Or.inr (he ▸ pyInStr_pyJoin h)
      | n v => exact absurd ht (by simp)
      | b v => exact absurd ht (by simp)
      | null => exact absurd ht (by simp)
      | obj l => exact absurd ht (by simp)
  | s text => exact absurd he (by simp [effType])
  | arr elems => exact absurd he (by simp [effType])
  | n v => exact absurd he (by simp [effType])
  | b v => exact absurd he (by simp [effType])
  | null => exact absurd he (by simp [effType])

theorem bucket_cover (cat : String) (κ : String → Nat → String)
    (hκ : ∀ s t i, pyInStr s t = true → pyInStr s (κ t i) = true) :
    ∀ (e : List (Nat × JValue)) (ts0 ts : List String)
      (ps : List (String × JValue)),
      e.foldlM (fun ts ix => addRecordTypes ts ix.2 cat) ts0 = .ok ts →
      mapME (fun ix => (effType ix.2 cat).map (fun t => (κ t ix.1, ix.2))) e = .ok ps →
      ∀ T ∈ ts, T ∈ ts0 ∨ ∃ k ∈ ps.map Prod.fst, pyInStr T k = true := by
  intro e
  induction e with
  | nil =>
    intro ts0 ts ps ht hp T hT
    simp only [List.foldlM_nil] at ht
    cases ht
    exact Or.inl hT
  | cons ix e ih =>
    intro ts0 ts ps ht hp T hT
    obtain ⟨ts1, hrec, hrest⟩ := foldlM_cons_ok ht
    simp only [mapME] at hp
    cases heff : effType ix.2 cat with
    | error er =>
      rw [heff] at hp
      exact absurd hp (by simp [Except.map, Bind.bind, Except.bind])
    | ok t =>
      rw [heff] at hp
      simp only [except_map_ok, except_bind_ok] at hp
      cases hrestp : mapME (fun ix =>
          (effType ix.2 cat).map (fun t => (κ t ix.1, ix.2))) e with
      | error er =>
        rw [hrestp] at hp
        exact absurd hp (by simp [Bind.bind, Except.bind])
      | ok ps' =>
        rw [hrestp] at hp
        simp only [except_bind_ok, except_pure_eq, Except.ok.injEq] at hp
        subst hp
        rcases ih ts1 ts ps' hrest hrestp T hT with h | ⟨k, hk, hsub⟩
        · rcases record_cover hrec heff T h with h0 | hsub
          · exact Or.inl h0
          · exact Or.inr ⟨κ t ix.1, by simp, hκ T t ix.1 hsub⟩
        · exact Or.inr ⟨k, by simp [hk], hsub⟩

theorem inventory_cover :
    ∀ (sd : Inventory) (ts0 ts : List String) (pls : List (List (String × JValue))),
      sd.foldlM (fun ts p =>
        p.2.foldlM (fun ts data => addRecordTypes ts data p.1) ts) ts0 = .ok ts →
      mapME (fun p => bucketPairs p.1 p.2) sd = .ok pls →
      ∀ T ∈ ts, T ∈ ts0 ∨ ∃ k ∈ pls.flatten.map Prod.fst, pyInStr T k = true := by
  intro sd
  induction sd with
  | nil =>
    intro ts0 ts pls ht hp T hT
    simp only [List.foldlM_nil] at ht
    cases ht
    exact Or.inl hT
  | cons p sd ih =>
    intro ts0 ts pls ht hp T hT
    obtain ⟨ts1, hbucket, hrest⟩ := foldlM_cons_ok ht
    simp only [mapME] at hp
    cases hbp : bucketPairs p.1 p.2 with
    | error er =>
      rw [hbp] at hp
      exact absurd hp (by simp [Bind.bind, Except.bind])
    | ok ps =>
      rw [hbp] at hp
      simp only [except_bind_ok] at hp
      cases hrestp : mapME (fun p => bucketPairs p.1 p.2) sd with
      | error er =>
        rw [hrestp] at hp
        exact absurd hp (by simp [Bind.bind, Except.bind])
      | ok pls' =>
        rw [hrestp] at hp
        simp only [except_bind_ok, except_pure_eq, Except.ok.injEq] at hp
        subst hp
        have hbfold : p.2.enum.foldlM
            (fun ts ix => addRecordTypes ts ix.2 p.1) ts0 = .ok ts1 := by
          have heq := enumFrom_foldlM (fun ts d => addRecordTypes ts d p.1) p.2 0 ts0
          rw [List.enum]
          exact heq.trans hbucket
        have hcov := bucket_cover p.1
          (fun t i => if p.2.length > 1 then t ++ "_" ++ toString i else t)
          (fun s t i hsub => by
            by_cases hl : p.2.length > 1
            · simp only [if_pos hl]
              rw [String.append_assoc]
              exact pyInStr_append_left _ hsub
            · simp only [if_neg hl]
              exact hsub)
          p.2.enum ts0 ts1 ps hbfold hbp
        rcases ih ts1 ts pls' hrest hrestp T hT with h | ⟨k, hk, hsub⟩
        · rcases hcov T h with h0 | ⟨k, hk, hsub⟩
          · exact Or.inl h0
          · refine Or.inr ⟨k, ?_, hsub⟩
            simp only [List.flatten_cons, List.map_append, List.mem_append]
            exact Or.inl hk
        · refine Or.inr ⟨k, ?_, hsub⟩
          simp only [List.flatten_cons, List.map_append, List.mem_append]
          exact Or.inr hk

theorem typeSet_covered {sd : Inventory} {ts : List String}
    {fl : List (String × JValue)}
    (hts : get_data_types_set sd = .ok ts)
    (hfl : flatten_data_for_comparison sd = .ok fl) :
    ∀ T ∈ ts, ∃ k ∈ fl.map Prod.fst, pyInStr T k = true := by
  intro T hT
  rw [flatten_eq_stream] at hfl
  cases hsp : streamPairs sd with
  | error er => rw [hsp] at hfl; exact absurd hfl (by simp [Except.map])
  | ok ps =>
    rw [hsp] at hfl
    simp only [except_map_ok, Except.ok.injEq] at hfl
    obtain ⟨pls, hm, hps⟩ := streamPairs_ok_parts hsp
    rw [get_data_types_set] at hts
    rcases inventory_cover sd [] ts pls hts hm T hT with h | ⟨k, hk, hsub⟩
    · exact absurd h (List.not_mem_nil T)
    · refine ⟨k, ?_, hsub⟩
      rw [← hfl, map_fst_foldl_put]
      have : k ∈ firstDedup (ps.map Prod.fst) := by
        rw [firstDedup]
        exact mem_foldl_setAdd.mpr (Or.inr (by rw [hps]; exact hk))
      simpa [firstDedup] using this

theorem exampleFromInv_some {inv : Inventory} {T : String} {ts : List String}
    {ex : Option String}
    (hts : get_data_types_set inv = .ok ts) (hT : T ∈ ts)
    (hex : exampleFromInv inv T = .ok ex) : ∃ s, ex = some s := by
  rw [exampleFromInv] at hex
  cases hfl : flatten_data_for_comparison inv with
  | error er =>
    rw [hfl] at hex
    exact absurd hex (by simp [Bind.bind, Except.bind])
  | ok fl =>
    rw [hfl] at hex
    simp only [except_bind_ok] at hex
    obtain ⟨k, hk, hsub⟩ := typeSet_covered hts hfl T hT
    cases hmk : (fl.map Prod.fst).filter (fun k => pyInStr T k) with
    | nil =>
      have : k ∈ (fl.map Prod.fst).filter (fun k => pyInStr T k) :=
        List.mem_filter.mpr ⟨hk, hsub⟩
      rw [hmk] at this
      exact absurd this (List.not_mem_nil k)
    | cons k0 tail =>
      rw [hmk] at hex
      simp only [except_pure_bind, except_pure_eq, Except.ok.injEq] at hex
      exact ⟨_, hex.symm⟩

theorem compare_ok_inv {clientData : Inventory} {comps : List (String × Inventory)}
    {r : Report} (h : compare_structured_data clientData comps = .ok r) :
    ∃ ct st, get_data_types_set clientData = .ok ct ∧
      comps.foldlM (compareCompetitor ct) ([], []) = .ok st ∧ r = st.1 := by
  rw [compare_structured_data] at h
  cases hct : get_data_types_set clientData with
  | error er => rw [hct] at h; exact absurd h (by simp [Bind.bind, Except.bind])
  | ok ct =>
    rw [hct] at h
    simp only [except_bind_ok] at h
    cases hst : comps.foldlM (compareCompetitor ct) ([], []) with
    | error er => rw [hst] at h; exact absurd h (by simp [Bind.bind, Except.bind])
    | ok st =>
      rw [hst] at h
      simp only [except_bind_ok, except_pure_eq, Except.ok.injEq] at h
      exact ⟨ct, st, rfl, hst, h.symm⟩

theorem entryFor_cons_ok {ct : List String} {T : String} {c : String × Inventory}
    {cs : List (String × Inventory)} {e0 eo : Option ReportEntry}
    (h : entryFor ct T (c :: cs) e0 = .ok eo) :
    ∃ ts, get_data_types_set c.2 = .ok ts ∧
      ((ts.contains T && !ct.contains T) = true →
        ∃ e1, stepEntry c.1 c.2 T e0 = .ok e1 ∧ entryFor ct T cs (some e1) = .ok eo) ∧
      ((ts.contains T && !ct.contains T) = false →
        entryFor ct T cs e0 = .ok eo) := by
  rw [entryFor] at h
  cases hts : get_data_types_set c.2 with
  | error er => rw [hts] at h; exact absurd h (by simp [Bind.bind, Except.bind])
  | ok ts =>
    rw [hts] at h
    simp only [except_bind_ok] at h
    refine ⟨ts, rfl, ?_, ?_⟩
    · intro hcond
      rw [if_pos hcond] at h
      cases hse : stepEntry c.1 c.2 T e0 with
      | error er => rw [hse] at h; exact absurd h (by simp [Bind.bind, Except.bind])
      | ok e1 =>
        rw [hse] at h
        simp only [except_bind_ok] at h
        exact ⟨e1, rfl, h⟩
    · intro hcond
      rw [if_neg (by rw [hcond]; exact Bool.false_ne_true)] at h
      exact h

theorem entryFor_isSome {ct : List String} {T : String} :
    ∀ (cs : List (String × Inventory)) (e0 eo : Option ReportEntry),
      entryFor ct T cs e0 = .ok eo →
      (eo.isSome = true ↔ (e0.isSome = true ∨ (¬ T ∈ ct ∧ ∃ c, c ∈ cs ∧
        ∃ ts, get_data_types_set c.2 = .ok ts ∧ T ∈ ts))) := by
  intro cs
  induction cs with
  | nil =>
    intro e0 eo h
    rw [entryFor] at h
    cases h
    simp
  | cons c cs ih =>
    intro e0 eo h
    obtain ⟨ts, hts, htrue, hfalse⟩ := entryFor_cons_ok h
    by_cases hcond : (ts.contains T && !ct.contains T) = true
    · obtain ⟨e1, hse, hrest⟩ := htrue hcond
      have hii := ih (some e1) eo hrest
      have hcond2 : T ∈ ts ∧ ¬ T ∈ ct := by simpa using hcond
      have heo : eo.isSome = true := hii.mpr (Or.inl (by simp))
      rw [heo]
      constructor
      · intro
        exact Or.inr ⟨hcond2.2, c, List.mem_cons_self c cs, ts, hts, hcond2.1⟩
      · intro
        rfl
    · have hcond' : (ts.contains T && !ct.contains T) = false := by
        simpa using hcond
      have hcond2 : ¬ (T ∈ ts ∧ ¬ T ∈ ct) := by
        intro hx
        apply hcond
        simpa using hx
      have hrest := hfalse hcond'
      have hii := ih e0 eo hrest
      rw [hii]
      constructor
      · rintro (h0 | ⟨hc, c', hc', ts', hts', hT'⟩)
        · exact Or.inl h0
        · exact Or.inr ⟨hc, c', List.mem_cons_of_mem c hc', ts', hts', hT'⟩
      · rintro (h0 | ⟨hc, c', hc', ts2, hts2, hT2⟩)
        · exact Or.inl h0
        · rcases List.mem_cons.mp hc' with rfl | hmem
          · rw [hts] at hts2
            injection hts2 with heq
            subst heq
            exact absurd ⟨hT2, hc⟩ hcond2
          · exact Or.inr ⟨hc, c', hmem, ts2, hts2, hT2⟩

theorem entryFor_from_some {ct : List String} {T : String} (hctT : ¬ T ∈ ct) :
    ∀ (cs : List (String × Inventory)) (e0 : ReportEntry) (x : String)
      (eo : Option ReportEntry),
      e0.example_from_competitor = some x →
      entryFor ct T cs (some e0) = .ok eo →
      ∃ L, observerLabels T cs = .ok L ∧
        eo = some (ReportEntry.mk (e0.competitors_with_data ++ L)
          e0.example_from_competitor e0.schema_org_example) := by
  intro cs
  induction cs with
  | nil =>
    intro e0 x eo hex h
    rw [entryFor] at h
    cases h
    exact ⟨[], rfl, by simp⟩
  | cons c cs ih =>
    intro e0 x eo hex h
    obtain ⟨ts, hts, htrue, hfalse⟩ := entryFor_cons_ok h
    have hct : ct.contains T = false := by simpa using hctT
    by_cases hobs : ts.contains T = true
    · have hcond : (ts.contains T && !ct.contains T) = true := by
        rw [hobs, hct]
        rfl
      obtain ⟨e1, hse, hrest⟩ := htrue hcond
      rw [stepEntry, hex] at hse
      simp only [Except.ok.injEq] at hse
      subst hse
      obtain ⟨L, hL, heo⟩ := ih (appendLabel c.1 e0) x eo (by simp [appendLabel, hex]) hrest
      refine ⟨c.1 :: L, ?_, ?_⟩
      · rw [observerLabels, hts]
        simp only [except_bind_ok, hL, except_pure_eq, hobs, if_true]
      · rw [heo]
        simp [appendLabel, List.append_assoc]
    · have hcond : (ts.contains T && !ct.contains T) = false := by
        simp only [Bool.not_eq_true] at hobs
        rw [hobs]
        rfl
      obtain ⟨L, hL, heo⟩ := ih e0 x eo hex (hfalse hcond)
      refine ⟨L, ?_, heo⟩
      rw [observerLabels, hts]
      have hobs' : ts.contains T = false := by simpa using hobs
      simp only [except_bind_ok, hL, except_pure_eq, hobs', if_false,
        Bool.false_eq_true]

theorem entryFor_from_none {ct : List String} {T : String} (hctT : ¬ T ∈ ct) :
    ∀ (cs : List (String × Inventory)) (eo : Option ReportEntry) (e : ReportEntry),
      entryFor ct T cs none = .ok eo → eo = some e →
      ∃ c, firstObserver T cs = .ok (some c) ∧
        (∃ L, observerLabels T cs = .ok L ∧ e.competitors_with_data = L) ∧
        exampleFromInv c.2 T = .ok e.example_from_competitor := by
  intro cs
  induction cs with
  | nil =>
    intro eo e h heo
    rw [entryFor] at h
    cases h
    cases heo
  | cons c cs ih =>
    intro eo e h heo
    obtain ⟨ts, hts, htrue, hfalse⟩ := entryFor_cons_ok h
    have hct : ct.contains T = false := by simpa using hctT
    by_cases hobs : ts.contains T = true
    · have hcond : (ts.contains T && !ct.contains T) = true := by
        rw [hobs, hct]
        rfl
      obtain ⟨e1, hse, hrest⟩ := htrue hcond
      rw [stepEntry] at hse
      obtain ⟨ex, hexinv, he1⟩ := except_map_ok_inv hse
      obtain ⟨s, hs⟩ := exampleFromInv_some hts (by simpa using hobs) hexinv
      subst hs
      subst he1
      obtain ⟨L, hL, heo'⟩ := entryFor_from_some hctT cs _ s eo rfl hrest
      rw [heo'] at heo
      injection heo with heq
      refine ⟨c, ?_, ⟨c.1 :: L, ?_, ?_⟩, ?_⟩
      · rw [firstObserver, hts]
        simp only [except_bind_ok, hobs, if_true, except_pure_eq]
      · rw [observerLabels, hts]
        simp only [except_bind_ok, hL, except_pure_eq, hobs, if_true]
      · rw [← heq]
        simp
      · rw [← heq]
        simpa using hexinv
    · have hcond : (ts.contains T && !ct.contains T) = false := by
        have hobs' : ts.contains T = false := by simpa using hobs
        rw [hobs']
        rfl
      obtain ⟨c0, hfo, ⟨L, hL, hcw⟩, hex⟩ := ih eo e (hfalse hcond) heo
      have hobs' : ts.contains T = false := by simpa using hobs
      refine ⟨c0, ?_, ⟨L, ?_, hcw⟩, hex⟩
      · rw [firstObserver, hts]
        simp only [except_bind_ok, hobs', Bool.false_eq_true, if_false]
        exact hfo
      · rw [observerLabels, hts]
        simp only [except_bind_ok, hL, except_pure_eq, hobs', Bool.false_eq_true,
          if_false]

theorem unionTypes_mem_aux {T : String} :
    ∀ (cs : List (String × Inventory)) (u0 uts : List String),
      cs.foldlM (fun ts c => (get_data_types_set c.2).map (setUnion ts)) u0 = .ok uts →
      (T ∈ uts ↔ T ∈ u0 ∨ ∃ c, c ∈ cs ∧
        ∃ ts, get_data_types_set c.2 = .ok ts ∧ T ∈ ts) := by
  intro cs
  induction cs with
  | nil =>
    intro u0 uts h
    simp only [List.foldlM_nil] at h
    cases h
    simp
  | cons c cs ih =>
    intro u0 uts h
    obtain ⟨u1, hc, hrest⟩ := foldlM_cons_ok h
    obtain ⟨ts, hts, hu1⟩ := except_map_ok_inv hc
    subst hu1
    rw [ih _ _ hrest, mem_setUnion]
    constructor
    · rintro ((h0 | hT) | ⟨c', hc', ts', hts', hT'⟩)
      · exact Or.inl h0
      · exact Or.inr ⟨c, List.mem_cons_self c cs, ts, hts, hT⟩
      · exact Or.inr ⟨c', List.mem_cons_of_mem c hc', ts', hts', hT'⟩
    · rintro (h0 | ⟨c', hc', ts', hts', hT'⟩)
      · exact Or.inl (Or.inl h0)
      · rcases List.mem_cons.mp hc' with rfl | hmem
        · rw [hts] at hts'
          injection hts' with heq
          subst heq
          exact Or.inl (Or.inr hT')
        · exact Or.inr ⟨c', hmem, ts', hts', hT'⟩

/-! ### Claim C2. -/

/-- C2: when the comparison returns, a type `T` is a top-level key of the
report exactly when `T` is absent from the reference type set and present
in the union of the competitors' type sets. -/
theorem c2_report_keys (clientData : Inventory)
    (comps : List (String × Inventory)) (T : String) (cts uts : List String)
    (hok : comparisonSucceeds clientData comps = true)
    (hct : get_data_types_set clientData = .ok cts)
    (hu : unionCompetitorTypes comps = .ok uts) :
    reportHasKey clientData comps T = true ↔ (¬ T ∈ cts ∧ T ∈ uts) := by
  rw [comparisonSucceeds] at hok
  cases hcomp : compare_structured_data clientData comps with
  | error er => rw [hcomp] at hok; exact absurd hok (by simp)
  | ok r =>
    rw [reportHasKey, hcomp]
    obtain ⟨ct, st, hct', hfold, hr⟩ := compare_ok_inv hcomp
    rw [hct] at hct'
    injection hct' with heq
    subst heq
    have hentry := compareFold_entry cts comps ([], []) st hfold T
    have hiff := entryFor_isSome comps none (alistGet? st.1 T) hentry
    show alistHas r T = true ↔ (¬ T ∈ cts ∧ T ∈ uts)
    rw [alistHas_eq_isSome, hr]
    simp only [Option.isSome_none, Bool.false_eq_true, false_or] at hiff
    rw [hiff]
    rw [unionCompetitorTypes] at hu
    rw [unionTypes_mem_aux comps [] uts hu]
    simp

/-- C2 witness: the key criterion evaluated at the type `Zq`, present in
both competitors of `twoObserverComps` and absent from an empty
reference. -/
theorem c2_report_keys_witness :
    reportHasKey [] twoObserverComps "Zq" = true ↔
      (¬ "Zq" ∈ ([] : List String) ∧ "Zq" ∈ ["Zq"]) :=
  c2_report_keys [] twoObserverComps "Zq" [] ["Zq"] rfl rfl rfl

/-- C1, amended: `compare_structured_data` performs no property-level
comparison and synthesizes no `(missing properties)` rows: every top-level
report key is a type drawn from the union of the competitors' type sets —
and on Scenario A (`Article` shared, competitor richer by `publisher`) the
report is empty, as `c1_counterexample` computes. -/
theorem c1_no_property_rows (clientData : Inventory)
    (comps : List (String × Inventory)) (k : String) (uts : List String)
    (h1 : reportHasKey clientData comps k = true)
    (hu : unionCompetitorTypes comps = .ok uts) : k ∈ uts := by
  rw [reportHasKey] at h1
  cases hcomp : compare_structured_data clientData comps with
  | error er => rw [hcomp] at h1; exact absurd h1 (by simp)
  | ok r =>
    rw [hcomp] at h1
    have h2 : alistHas r k = true := h1
    obtain ⟨ct, st, hct', hfold, hr⟩ := compare_ok_inv hcomp
    have hentry := compareFold_entry ct comps ([], []) st hfold k
    have hiff := entryFor_isSome comps none (alistGet? st.1 k) hentry
    rw [alistHas_eq_isSome, hr, hiff] at h2
    simp only [Option.isSome_none, Bool.false_eq_true, false_or] at h2
    obtain ⟨-, c, hc, ts, hts, hkts⟩ := h2
    rw [unionCompetitorTypes] at hu
    rw [unionTypes_mem_aux comps [] uts hu]
    exact Or.inr ⟨c, hc, ts, hts, hkts⟩

/-- C1 witness: the amended key property evaluated on a report with one
missing type. -/
theorem c1_no_property_rows_witness : "Zq" ∈ ["Zq"] :=
  c1_no_property_rows [] twoObserverComps "Zq" ["Zq"] rfl rfl

/-! ### Claim C5. -/

/-- C5: when a missing type has a report row, its competitor example is the
one drawn from the first competitor, in the supplied order, whose type set
holds the type — never replaced by a later competitor's example — and its
competitor list holds the labels of all such competitors in first-seen
order. -/
theorem c5_first_observer_example (clientData : Inventory)
    (comps : List (String × Inventory)) (T : String) (c : String × Inventory)
    (hsome : (reportEntry? clientData comps T).isSome = true)
    (hfo : firstObserver T comps = .ok (some c)) :
    (reportEntry? clientData comps T).map (fun e => e.competitors_with_data)
      = (observerLabels T comps).toOption ∧
    (reportEntry? clientData comps T).map (fun e => e.example_from_competitor)
      = (exampleFromInv c.2 T).toOption := by
  rw [reportEntry?] at hsome ⊢
  cases hcomp : compare_structured_data clientData comps with
  | error er => rw [hcomp] at hsome; exact absurd hsome (by simp)
  | ok r =>
    rw [hcomp] at hsome
    have hsome2 : (alistGet? r T).isSome = true := hsome
    show (alistGet? r T).map (fun e => e.competitors_with_data)
        = (observerLabels T comps).toOption ∧
      (alistGet? r T).map (fun e => e.example_from_competitor)
        = (exampleFromInv c.2 T).toOption
    obtain ⟨ct, st, hct', hfold, hr⟩ := compare_ok_inv hcomp
    have hentry := compareFold_entry ct comps ([], []) st hfold T
    cases hget : alistGet? r T with
    | none => rw [hget] at hsome2; exact absurd hsome2 (by simp)
    | some e =>
      rw [hr] at hget
      rw [hget] at hentry
      have hctT : ¬ T ∈ ct := by
        have hiff := entryFor_isSome comps none (some e) hentry
        simp only [Option.isSome_some, Option.isSome_none, Bool.false_eq_true,
          false_or, true_iff] at hiff
        exact hiff.1
      obtain ⟨c0, hfo0, ⟨L, hL, hcw⟩, hex⟩ :=
        entryFor_from_none hctT comps (some e) e hentry rfl
      rw [hfo] at hfo0
      injection hfo0 with heq
      injection heq with heq
      subst heq
      rw [hL, hex]
      constructor
      · simp [hcw, Except.toOption]
      · simp [Except.toOption]

/-- C5 witness: the first-observer rule evaluated on two competitors that
both carry the type `Zq`. -/
theorem c5_first_observer_example_witness :
    (reportEntry? [] twoObserverComps "Zq").map (fun e => e.competitors_with_data)
      = (observerLabels "Zq" twoObserverComps).toOption ∧
    (reportEntry? [] twoObserverComps "Zq").map (fun e => e.example_from_competitor)
      = (exampleFromInv [("JSON-LD", [JValue.obj [("@type", JValue.s "Zq"),
          ("a", JValue.s "first")]])] "Zq").toOption :=
  c5_first_observer_example [] twoObserverComps "Zq"
    ("Competitor 1", [("JSON-LD", [JValue.obj [("@type", JValue.s "Zq"),
      ("a", JValue.s "first")]])])
    rfl rfl
